import Mathlib

/-!
Verification of the StandX maker-points bot control loop.

This file gives a shallow embedding of the order-lifecycle controller
(`src/bot/maker-points-bot.ts`) and of the streaming-feed reconnect logic
(`StandXWebSocket` in `src/api/standx-websocket.ts`, shipped inside
`src/utils/ws-logger.ts` in this tree), and proves properties of the
embedded code.

Modelling conventions:
  * `decimal.js` values are embedded as exact rationals (`ℚ`); the source
    performs arbitrary-precision decimal arithmetic, and every comparison
    the proofs depend on is structural, not precision-sensitive.
  * Each handler becomes a pure function `... → MakerPointsBot × List Action`
    returning the updated controller object together with the ordered trace
    of venue (order-gateway) calls it issued.
  * Results of awaited external calls (position queries, order placement,
    cancellation, close success, fresh REST mark price) are supplied by an
    `Env` value, one field per call site, so a single run is deterministic.
  * `async`/`await` interleaving is not modelled; the one concurrency effect
    the code is written against — a `stop()` landing during the 10-second
    cooldown inside `handleOrderFilled` — is modelled by the Env flag
    `stopDuringWait`, and a rejected (throwing) close call by `closeThrows`.
-/

namespace StandXMM

/-- Order side, `'buy' | 'sell'` in the source. -/
inductive Side
  | buy
  | sell
deriving DecidableEq, Repr

/-- Opposite side, used to derive the offsetting close side
(`side === 'buy' ? 'sell' : 'buy'`). -/
def Side.opposite : Side → Side
  | .buy => .sell
  | .sell => .buy

/-- A tracked order (the fields of the source's `Order` that the controller
reads: id, side, price, quantity, fill quantity and venue status string). -/
structure Order where
  orderId : String
  side : Side
  price : ℚ
  qty : ℚ
  filledQty : ℚ
  status : String
deriving DecidableEq, Repr

/-- Trading mode from config: `'both' | 'buy' | 'sell'`. -/
inductive TradingMode
  | both
  | buy
  | sell
deriving DecidableEq, Repr

/-- Whether the mode quotes the buy side
(`mode === 'both' || mode === 'buy'`). -/
def TradingMode.includesBuy : TradingMode → Bool
  | .both => true
  | .buy => true
  | .sell => false

/-- Whether the mode quotes the sell side
(`mode === 'both' || mode === 'sell'`). -/
def TradingMode.includesSell : TradingMode → Bool
  | .both => true
  | .buy => false
  | .sell => true

/-- The `config.trading` fields the control loop reads. -/
structure TradingConfig where
  mode : TradingMode
  orderSizeBtc : ℚ
  orderDistanceBp : ℚ
  minDistanceBp : ℚ
  maxDistanceBp : ℚ
deriving DecidableEq, Repr

/-- `BotStats` counters (timestamps omitted: wall-clock time is not modelled). -/
structure BotStats where
  ordersPlaced : ℕ
  ordersCanceled : ℕ
  ordersFilled : ℕ
deriving DecidableEq, Repr

/-- `BotState`: the `state` field of `MakerPointsBot`. -/
structure BotState where
  isRunning : Bool
  markPrice : ℚ
  position : ℚ
  buyOrder : Option Order
  sellOrder : Option Order
  stats : BotStats
deriving DecidableEq, Repr

/-- The mutable fields of the `MakerPointsBot` class that the handlers read
and write. -/
structure MakerPointsBot where
  state : BotState
  markPrice : ℚ
  lastPrice : Option ℚ
  spreadBid : Option ℚ
  spreadAsk : Option ℚ
  stopRequested : Bool
  isProcessingFill : Bool
  isPausedDueToVolatility : Bool
deriving DecidableEq, Repr

/-- A mutating order-gateway call issued by the controller, in program order.
`closeOrder` is the aggressive offsetting order submitted by
`OrderManager.closePosition`. -/
inductive Action
  | cancelAll
  | cancelOrder (orderId : String)
  | placeOrder (side : Side) (qty price : ℚ)
  | closeOrder (qty : ℚ) (side : Side)
deriving DecidableEq, Repr

/-- Results of the awaited external calls a single handler run can make,
one field per call site. -/
structure Env where
  /-- `orderManager.getCurrentPosition()` inside `checkAndReplaceOrders`. -/
  currentPosition : ℚ
  /-- the second `getCurrentPosition()` inside `handleOrderFilled`, after the
  10-second cooldown. -/
  currentPositionAfterWait : ℚ
  /-- result of `orderManager.cancelOrder(id)`. -/
  cancelOk : Bool
  /-- result of `orderManager.placeOrder('buy', ...)`; `none` = placement failed. -/
  placeBuy : Option Order
  /-- result of `orderManager.placeOrder('sell', ...)`. -/
  placeSell : Option Order
  /-- result of `orderManager.closePosition(...)` at the first close call site. -/
  closeOk : Bool
  /-- result of `closePosition` inside a nested `closeDetectedPosition` call. -/
  closeOk2 : Bool
  /-- `client.getMarkPrice(symbol)`; `none` = the REST request throws. -/
  freshMark : Option ℚ
  /-- a concurrent `stop()` lands during the 10-second cooldown of
  `handleOrderFilled`. -/
  stopDuringWait : Bool
  /-- the awaited `closePosition` call in `handleOrderFilled` rejects
  (throws) instead of returning a boolean. -/
  closeThrows : Bool
deriving DecidableEq, Repr

/-- Placement result the environment supplies for a given side. -/
def Env.place (env : Env) : Side → Option Order
  | .buy => env.placeBuy
  | .sell => env.placeSell

/-- Epsilon below which the running loop treats a position as zero:
`new Decimal('0.00001')`. -/
def positionEps : ℚ := 1 / 100000

/-- Modelled from the spec: `OrderManager.calculateOrderPrice` lives in
`src/bot/order-manager.ts`, which is absent from the source tree. Spec §4.2:
`buyPrice = markPrice × (1 − targetDistanceBp/10000)`,
`sellPrice = markPrice × (1 + targetDistanceBp/10000)`, then tick rounding
(tick rounding is omitted here: the tick size is venue data the spec does not
fix, and no claim depends on it). -/
def calculateOrderPrice (side : Side) (markPrice bp : ℚ) : ℚ :=
  match side with
  | .buy => markPrice * (1 - bp / 10000)
  | .sell => markPrice * (1 + bp / 10000)

/-- Modelled from the spec: `OrderManager.closePosition` is in the missing
`src/bot/order-manager.ts`. Spec §4.3 steps 3–4 describe the close performed
on a fill as "cancel all still-resting orders" followed by one "aggressive
offsetting order sized to the exact filled quantity, priced to cross the
book", and §2 places the aggressive-crossing price derivation inside the
Order Gateway; so the call expands to a cancel-all followed by exactly one
offsetting order. Whether the composite call reports success is supplied by
the `Env` at each call site. -/
def closePositionCalls (qty : ℚ) (side : Side) : List Action :=
  [Action.cancelAll, Action.closeOrder qty side]

/-- Read an order slot by side. -/
def MakerPointsBot.slot (bot : MakerPointsBot) : Side → Option Order
  | .buy => bot.state.buyOrder
  | .sell => bot.state.sellOrder

/-- Write an order slot by side. -/
def MakerPointsBot.setSlot (bot : MakerPointsBot) (side : Side) (o : Option Order) :
    MakerPointsBot :=
  match side with
  | .buy => { bot with state := { bot.state with buyOrder := o } }
  | .sell => { bot with state := { bot.state with sellOrder := o } }

/-- Increment the `ordersPlaced` counter. -/
def MakerPointsBot.incPlaced (bot : MakerPointsBot) : MakerPointsBot :=
  { bot with state := { bot.state with stats :=
      { bot.state.stats with ordersPlaced := bot.state.stats.ordersPlaced + 1 } } }

/-- Increment the `ordersCanceled` counter. -/
def MakerPointsBot.incCanceled (bot : MakerPointsBot) : MakerPointsBot :=
  { bot with state := { bot.state with stats :=
      { bot.state.stats with ordersCanceled := bot.state.stats.ordersCanceled + 1 } } }

/-- `stop()`: sets the stop flag, clears `state.isRunning`, and cancels all
orders at the venue. The WebSocket disconnect and the Telegram notification
are not order-gateway calls and are not traced. -/
def MakerPointsBot.stop (bot : MakerPointsBot) : MakerPointsBot × List Action :=
  ({ bot with
      stopRequested := true
      state := { bot.state with isRunning := false } },
   [Action.cancelAll])

/-- The two conditional placements shared verbatim by `placeInitialOrders`
and by the volatility-resume branch of `checkAndReplaceOrders`: place the
buy side when the mode includes it, then the sell side, each at
`calculateOrderPrice(side, markPrice, orderDistanceBp)`, recording the slot
and the counter only when the gateway returns an order. -/
def placeConfiguredOrders (cfg : TradingConfig) (env : Env) (bot : MakerPointsBot) :
    MakerPointsBot × List Action :=
  let r1 :=
    if cfg.mode.includesBuy then
      let buyPrice := calculateOrderPrice .buy bot.markPrice cfg.orderDistanceBp
      let acts := [Action.placeOrder .buy cfg.orderSizeBtc buyPrice]
      match env.placeBuy with
      | some o => ((bot.setSlot .buy (some o)).incPlaced, acts)
      | none => (bot, acts)
    else (bot, [])
  let r2 :=
    if cfg.mode.includesSell then
      let sellPrice := calculateOrderPrice .sell r1.1.markPrice cfg.orderDistanceBp
      let acts := [Action.placeOrder .sell cfg.orderSizeBtc sellPrice]
      match env.placeSell with
      | some o => ((r1.1.setSlot .sell (some o)).incPlaced, acts)
      | none => (r1.1, acts)
    else (r1.1, [])
  (r2.1, r1.2 ++ r2.2)

/-- `placeInitialOrders()`: cancel any existing orders, then place the
configured sides. Note: the source checks neither `stopRequested` nor
`state.isRunning` anywhere in this function. -/
def placeInitialOrders (cfg : TradingConfig) (env : Env) (bot : MakerPointsBot) :
    MakerPointsBot × List Action :=
  let r := placeConfiguredOrders cfg env bot
  (r.1, Action.cancelAll :: r.2)

/-- `replaceOrder(side, useFreshPrice)`: when the slot is empty, optionally
fetch a fresh mark price (a throw there aborts the whole function through the
outer catch, before any gateway call) and place a new order; when the slot
holds an order, optionally fetch a fresh price (a throw here is caught locally
and the cached price is used), cancel the old order — a failed cancel is
informational — and place the replacement. -/
def replaceOrder (cfg : TradingConfig) (env : Env) (bot : MakerPointsBot)
    (side : Side) (useFreshPrice : Bool) : MakerPointsBot × List Action :=
  match bot.slot side with
  | none =>
    if useFreshPrice then
      match env.freshMark with
      | none => (bot, [])
      | some fresh =>
        let bot := { bot with markPrice := fresh,
                              state := { bot.state with markPrice := fresh } }
        let newPrice := calculateOrderPrice side bot.markPrice cfg.orderDistanceBp
        let acts := [Action.placeOrder side cfg.orderSizeBtc newPrice]
        match env.place side with
        | some o => ((bot.setSlot side (some o)).incPlaced, acts)
        | none => (bot, acts)
    else
      let newPrice := calculateOrderPrice side bot.markPrice cfg.orderDistanceBp
      let acts := [Action.placeOrder side cfg.orderSizeBtc newPrice]
      match env.place side with
      | some o => ((bot.setSlot side (some o)).incPlaced, acts)
      | none => (bot, acts)
  | some order =>
    let fetched :=
      if useFreshPrice then
        match env.freshMark with
        | some fresh =>
          ({ bot with markPrice := fresh,
                      state := { bot.state with markPrice := fresh } }, fresh)
        | none => (bot, bot.markPrice)
      else (bot, bot.markPrice)
    let bot1 := if env.cancelOk then fetched.1.incCanceled else fetched.1
    let newPrice := calculateOrderPrice side fetched.2 cfg.orderDistanceBp
    let acts := [Action.cancelOrder order.orderId,
                 Action.placeOrder side cfg.orderSizeBtc newPrice]
    match env.place side with
    | some o => ((bot1.setSlot side (some o)).incPlaced, acts)
    | none => (bot1, acts)

/-- `closeDetectedPosition(position)`: cancel all pending orders, close the
position with an aggressive offsetting order; on close failure stop the bot;
on success zero the local position, wait, and re-place the initial orders.
The success flag of the nested `closePosition` call is passed in because the
two call sites of this helper inside `handleOrderFilled` runs use distinct
environment slots. -/
def closeDetectedPosition (cfg : TradingConfig) (env : Env) (bot : MakerPointsBot)
    (position : ℚ) (closeOk : Bool) : MakerPointsBot × List Action :=
  let positionSize := |position|
  let closeSide : Side := if 0 < position then .sell else .buy
  let acts := Action.cancelAll :: closePositionCalls positionSize closeSide
  if closeOk then
    let bot1 := { bot with state := { bot.state with position := 0 } }
    let r := placeInitialOrders cfg env bot1
    (r.1, acts ++ r.2)
  else
    let r := bot.stop
    (r.1, acts ++ r.2)

/-- Last-trade-to-mark gap in basis points:
`lastPrice.sub(markPrice).abs().div(markPrice).mul(10000)`. -/
def lastMarkGapBp (lp mark : ℚ) : ℚ :=
  |lp - mark| / mark * 10000

/-- Volatility gate of `checkAndReplaceOrders` (the `if (this.lastPrice)`
block). `Sum.inl` is an early return of the whole evaluation; `Sum.inr`
means control falls through to the spread check, carrying any resume
placements already performed. -/
def volatilityGate (cfg : TradingConfig) (env : Env) (bot : MakerPointsBot) :
    (MakerPointsBot × List Action) ⊕ (MakerPointsBot × List Action) :=
  match bot.lastPrice with
  | none => Sum.inr (bot, [])
  | some lp =>
    let gap := lastMarkGapBp lp bot.markPrice
    if cfg.orderDistanceBp < gap then
      if bot.isPausedDueToVolatility then
        Sum.inl (bot, [])
      else
        Sum.inl
          ({ bot with
              isPausedDueToVolatility := true
              state := { bot.state with buyOrder := none, sellOrder := none } },
           [Action.cancelAll])
    else
      if bot.isPausedDueToVolatility ∧ gap < cfg.orderDistanceBp * (8 / 10) then
        Sum.inr (placeConfiguredOrders cfg env { bot with isPausedDueToVolatility := false })
      else if bot.isPausedDueToVolatility then
        Sum.inl (bot, [])
      else
        Sum.inr (bot, [])

/-- Sell half of the spread validation: replace the open sell order when its
price is at or below the best ask. -/
def spreadCheckSell (cfg : TradingConfig) (env : Env) (bot : MakerPointsBot) (ask : ℚ) :
    (MakerPointsBot × List Action) ⊕ (MakerPointsBot × List Action) :=
  match bot.state.sellOrder with
  | some so =>
    if so.status == "OPEN" ∧ so.price ≤ ask then
      Sum.inl (replaceOrder cfg env bot .sell false)
    else Sum.inr (bot, [])
  | none => Sum.inr (bot, [])

/-- Spread validation of `checkAndReplaceOrders`: when both best bid and best
ask are known, an open buy order priced at or above the bid — checked first —
or an open sell order priced at or below the ask is canceled and replaced,
and the evaluation returns (`Sum.inl`) immediately after acting. -/
def spreadCheck (cfg : TradingConfig) (env : Env) (bot : MakerPointsBot) :
    (MakerPointsBot × List Action) ⊕ (MakerPointsBot × List Action) :=
  match bot.spreadBid, bot.spreadAsk with
  | some bid, some ask =>
    match bot.state.buyOrder with
    | some bo =>
      if bo.status == "OPEN" ∧ bid ≤ bo.price then
        Sum.inl (replaceOrder cfg env bot .buy false)
      else spreadCheckSell cfg env bot ask
    | none => spreadCheckSell cfg env bot ask
  | _, _ => Sum.inr (bot, [])

/-- Distance of an order from the mark price in basis points:
`markPrice.minus(price).abs().div(price).mul(10000)`. -/
def distanceBpOf (markPrice : ℚ) (o : Order) : ℚ :=
  |markPrice - o.price| / o.price * 10000

/-- Distance-band check for one side: replace the open order when its distance
leaves `[minDistanceBp, maxDistanceBp]`. -/
def distanceCheckSide (cfg : TradingConfig) (env : Env) (bot : MakerPointsBot)
    (side : Side) : MakerPointsBot × List Action :=
  match bot.slot side with
  | some o =>
    if o.status == "OPEN" then
      let d := distanceBpOf bot.markPrice o
      if d < cfg.minDistanceBp ∨ cfg.maxDistanceBp < d then
        replaceOrder cfg env bot side false
      else (bot, [])
    else (bot, [])
  | none => (bot, [])

/-- Distance-band check, buy side then sell side (both may act). -/
def distanceCheck (cfg : TradingConfig) (env : Env) (bot : MakerPointsBot) :
    MakerPointsBot × List Action :=
  let r1 := distanceCheckSide cfg env bot .buy
  let r2 := distanceCheckSide cfg env r1.1 .sell
  (r2.1, r1.2 ++ r2.2)

/-- The quoting-path tail of `checkAndReplaceOrders`: volatility gate, then —
unless the gate returned early — spread validation, then — unless a side was
replaced there — the distance-band check, concatenating the issued calls. -/
def quotingChecks (cfg : TradingConfig) (env : Env) (bot : MakerPointsBot) :
    MakerPointsBot × List Action :=
  match volatilityGate cfg env bot with
  | Sum.inl result => result
  | Sum.inr r1 =>
    match spreadCheck cfg env r1.1 with
    | Sum.inl r => (r.1, r1.2 ++ r.2)
    | Sum.inr r2 =>
      let r3 := distanceCheck cfg env r2.1
      (r3.1, r1.2 ++ r2.2 ++ r3.2)

/-- `checkAndReplaceOrders()`: the price-driven evaluation. Early returns when
not running or stopping, when no mark price has arrived, or when a fill is
being processed; then the authoritative-position safety check, the volatility
gate, the spread validation, and the distance-band check, in source order. -/
def checkAndReplaceOrders (cfg : TradingConfig) (env : Env) (bot : MakerPointsBot) :
    MakerPointsBot × List Action :=
  if !bot.state.isRunning || bot.stopRequested then (bot, [])
  else if bot.markPrice = 0 then (bot, [])
  else if bot.isProcessingFill then (bot, [])
  else if positionEps ≤ |env.currentPosition| then
    closeDetectedPosition cfg env bot env.currentPosition env.closeOk
  else
    quotingChecks cfg env bot

/-- The fields of a `WSMarkPriceData` message the handler reads. -/
structure Snapshot where
  markPrice : ℚ
  lastPrice : Option ℚ
  spread : Option (ℚ × ℚ)
deriving DecidableEq, Repr

/-- State updates `handleMarkPriceUpdate` performs before re-evaluating:
the mark price always, the last price and the bid/ask pair only when the
message carries them. -/
def applySnapshot (bot : MakerPointsBot) (snap : Snapshot) : MakerPointsBot :=
  let bot1 := { bot with markPrice := snap.markPrice,
                         state := { bot.state with markPrice := snap.markPrice } }
  let bot2 :=
    match snap.lastPrice with
    | some lp => { bot1 with lastPrice := some lp }
    | none => bot1
  match snap.spread with
  | some (bid, ask) => { bot2 with spreadBid := some bid, spreadAsk := some ask }
  | none => bot2

/-- `handleMarkPriceUpdate(data)`: apply the snapshot, then run
`checkAndReplaceOrders`. -/
def handleMarkPriceUpdate (cfg : TradingConfig) (env : Env) (bot : MakerPointsBot)
    (snap : Snapshot) : MakerPointsBot × List Action :=
  checkAndReplaceOrders cfg env (applySnapshot bot snap)

/-- `handlePositionUpdate(data)`: record the new position; when it changed
from (effectively) zero to at least the epsilon, close it immediately. -/
def handlePositionUpdate (cfg : TradingConfig) (env : Env) (bot : MakerPointsBot)
    (positionAmt : ℚ) : MakerPointsBot × List Action :=
  let previousPosition := bot.state.position
  let bot1 := { bot with state := { bot.state with position := positionAmt } }
  if |previousPosition| < positionEps ∧ positionEps ≤ |positionAmt| then
    closeDetectedPosition cfg env bot1 positionAmt env.closeOk
  else (bot1, [])

/-- The fields of a FILLED `WSOrderData` event the handler reads
(`clientOrderId || orderId` already merged into one id). -/
structure FillData where
  side : Side
  fillQty : ℚ
  orderId : String
deriving DecidableEq, Repr

/-- Clear the filled side's slot when its id matches the filled order. -/
def clearFilledSlot (bot : MakerPointsBot) (side : Side) (orderId : String) :
    MakerPointsBot :=
  match side with
  | .buy =>
    match bot.state.buyOrder with
    | some o =>
      if o.orderId == orderId then
        { bot with state := { bot.state with buyOrder := none } }
      else bot
    | none => bot
  | .sell =>
    match bot.state.sellOrder with
    | some o =>
      if o.orderId == orderId then
        { bot with state := { bot.state with sellOrder := none } }
      else bot
    | none => bot

/-- `handleOrderFilled(data)`: drop the event when a fill is already being
processed; otherwise set the guard flag, update counters and position, issue
the offsetting close; on a throwing close the catch logs and the `finally`
clears the flag; on a failed close stop the bot; on success zero the
position, clear the filled slot, wait out the cooldown (during which a
concurrent `stop()` may land), abort re-quoting if stopped, re-verify the
position (closing again if non-zero), and otherwise re-quote the filled side
with a fresh REST mark price. The guard flag is cleared in `finally` on every
path that set it. -/
def handleOrderFilled (cfg : TradingConfig) (env : Env) (bot : MakerPointsBot)
    (data : FillData) : MakerPointsBot × List Action :=
  if bot.isProcessingFill then (bot, [])
  else
    let bot1 := { bot with isProcessingFill := true }
    let bot2 := { bot1 with state := { bot1.state with stats :=
        { bot1.state.stats with ordersFilled := bot1.state.stats.ordersFilled + 1 } } }
    let bot3 := { bot2 with state := { bot2.state with position :=
        match data.side with
        | .buy => bot2.state.position + data.fillQty
        | .sell => bot2.state.position - data.fillQty } }
    let closeActs := closePositionCalls data.fillQty data.side.opposite
    if env.closeThrows then
      ({ bot3 with isProcessingFill := false }, closeActs)
    else if env.closeOk then
      let bot4 := { bot3 with state := { bot3.state with position := 0 } }
      let bot5 := clearFilledSlot bot4 data.side data.orderId
      let bot6 :=
        if env.stopDuringWait then
          { bot5 with stopRequested := true,
                      state := { bot5.state with isRunning := false } }
        else bot5
      if !bot6.state.isRunning || bot6.stopRequested then
        ({ bot6 with isProcessingFill := false }, closeActs)
      else if positionEps ≤ |env.currentPositionAfterWait| then
        let r := closeDetectedPosition cfg env bot6 env.currentPositionAfterWait env.closeOk2
        ({ r.1 with isProcessingFill := false }, closeActs ++ r.2)
      else
        let r := replaceOrder cfg env bot6 data.side true
        ({ r.1 with isProcessingFill := false }, closeActs ++ r.2)
    else
      let r := bot3.stop
      ({ r.1 with isProcessingFill := false }, closeActs ++ r.2)

/-- `ensureZeroPosition()` at startup: `position` is what `client.getPosition`
returned; any strictly non-zero position — no epsilon here — triggers a close.
The boolean is `false` when the function throws (close failed). -/
def ensureZeroPosition (env : Env) (position : ℚ) : Bool × List Action :=
  if 0 < |position| then
    (env.closeOk, closePositionCalls |position| (if 0 < position then .sell else .buy))
  else (true, [])

/-- Number of aggressive offsetting close orders in a trace. -/
def countCloseOrders : List Action → ℕ
  | [] => 0
  | Action.closeOrder _ _ :: rest => countCloseOrders rest + 1
  | _ :: rest => countCloseOrders rest

/-- Number of resting-order placements in a trace. -/
def countPlaceOrders : List Action → ℕ
  | [] => 0
  | Action.placeOrder _ _ _ :: rest => countPlaceOrders rest + 1
  | _ :: rest => countPlaceOrders rest

/-- `true` when the action is neither a cancel that could hit the order with
id `oid` nor a placement on side `side` — i.e. the action leaves that quoting
side alone. -/
def Action.leavesSideAlone (a : Action) (oid : String) (side : Side) : Bool :=
  match a with
  | .cancelAll => false
  | .cancelOrder i => !(i == oid)
  | .placeOrder s _ _ => !(s == side)
  | .closeOrder _ _ => true

/-- A trace performs no cancel and no placement for the given order/side. -/
def actsLeaveSideAlone (l : List Action) (oid : String) (side : Side) : Bool :=
  l.all (fun a => a.leavesSideAlone oid side)

/-- Actions carried by either branch of an early-return/fall-through outcome. -/
def sumActs (r : (MakerPointsBot × List Action) ⊕ (MakerPointsBot × List Action)) :
    List Action :=
  match r with
  | Sum.inl x => x.2
  | Sum.inr x => x.2

/-- Process a sequence of price snapshots through `handleMarkPriceUpdate`,
concatenating the issued gateway calls. -/
def processSnapshots (cfg : TradingConfig) (env : Env) :
    List Snapshot → MakerPointsBot → MakerPointsBot × List Action
  | [], bot => (bot, [])
  | snap :: rest, bot =>
    let r := handleMarkPriceUpdate cfg env bot snap
    let r2 := processSnapshots cfg env rest r.1
    (r2.1, r.2 ++ r2.2)

/-- Concrete fixture: a resting buy order 20.04 bp below a 100 mark. -/
def orderB1 : Order :=
  { orderId := "b1", side := .buy, price := 499 / 5, qty := 1 / 10,
    filledQty := 0, status := "OPEN" }

/-- Concrete fixture: a resting sell order 19.96 bp above a 100 mark. -/
def orderS1 : Order :=
  { orderId := "s1", side := .sell, price := 501 / 5, qty := 1 / 10,
    filledQty := 0, status := "OPEN" }

/-- Concrete fixture: the buy order the gateway returns on a re-placement. -/
def orderB2 : Order :=
  { orderId := "b2", side := .buy, price := 499 / 5, qty := 1 / 10,
    filledQty := 0, status := "OPEN" }

/-- Concrete fixture: the sell order the gateway returns on a re-placement. -/
def orderS2 : Order :=
  { orderId := "s2", side := .sell, price := 501 / 5, qty := 1 / 10,
    filledQty := 0, status := "OPEN" }

/-- Concrete fixture: the default configuration
(`both`, size 0.1, target 20 bp, band [10 bp, 30 bp]). -/
def cfg0 : TradingConfig :=
  { mode := .both, orderSizeBtc := 1 / 10, orderDistanceBp := 20,
    minDistanceBp := 10, maxDistanceBp := 30 }

/-- Concrete fixture: a quiet running controller quoting both sides at a 100
mark with a 99.9/100.1 book, both orders inside the distance band. -/
def bot0 : MakerPointsBot :=
  { state :=
      { isRunning := true, markPrice := 100, position := 0,
        buyOrder := some orderB1, sellOrder := some orderS1,
        stats := { ordersPlaced := 2, ordersCanceled := 0, ordersFilled := 0 } },
    markPrice := 100, lastPrice := some 100,
    spreadBid := some (999 / 10), spreadAsk := some (1001 / 10),
    stopRequested := false, isProcessingFill := false,
    isPausedDueToVolatility := false }

/-- Concrete fixture: a benign environment — flat position, successful
gateway calls, fresh REST mark price 100, no interference. -/
def env0 : Env :=
  { currentPosition := 0, currentPositionAfterWait := 0, cancelOk := true,
    placeBuy := some orderB2, placeSell := some orderS2, closeOk := true,
    closeOk2 := true, freshMark := some 100, stopDuringWait := false,
    closeThrows := false }

/-- Concrete fixture: the buy order of `bot0` fills completely. -/
def fill0 : FillData :=
  { side := .buy, fillQty := 1 / 10, orderId := "b1" }

/-- Concrete fixture: a snapshot whose best bid (99.7) sits below the resting
buy price 99.8, so the spread-crossing guard fires for the buy side, while
the buy order's distance from the mark stays inside the [10, 30] bp band. -/
def snapCrossed : Snapshot :=
  { markPrice := 100, lastPrice := some 100, spread := some (997 / 10, 1001 / 10) }

/-- Concrete fixture: a quiet snapshot matching `bot0`: mark 100, last 100,
best bid 99.9 above the resting buy, best ask 100.1 below the resting sell. -/
def snapQuiet : Snapshot :=
  { markPrice := 100, lastPrice := some 100, spread := some (999 / 10, 1001 / 10) }

/-- Reconnect-relevant fields of `StandXWebSocket`
(`reconnectAttempts = 0`, `maxReconnectAttempts = 30`,
`reconnectDelay = 1000`, `isManualClose`). -/
structure StandXWebSocket where
  reconnectAttempts : ℕ
  maxReconnectAttempts : ℕ
  reconnectDelay : ℕ
  isManualClose : Bool
deriving DecidableEq, Repr

/-- Events the reconnect path emits. -/
inductive WSEvent
  | reconnecting (attempt delay : ℕ)
  | maxReconnectReached
  | marketReconnected
deriving DecidableEq, Repr

/-- `scheduleReconnect(stream)`: when the attempt counter has reached the
maximum, emit `max_reconnect_reached` and schedule nothing; otherwise compute
`delay = min(reconnectDelay * 2^attempts, 30000)`, increment the counter,
emit `reconnecting` with the incremented counter, and schedule a retry timer
for `delay` (the returned `Option ℕ`). -/
def scheduleReconnect (s : StandXWebSocket) :
    StandXWebSocket × List WSEvent × Option ℕ :=
  if s.maxReconnectAttempts ≤ s.reconnectAttempts then
    (s, [WSEvent.maxReconnectReached], none)
  else
    let delay := min (s.reconnectDelay * 2 ^ s.reconnectAttempts) 30000
    let s1 := { s with reconnectAttempts := s.reconnectAttempts + 1 }
    (s1, [WSEvent.reconnecting s1.reconnectAttempts delay], some delay)

/-- Failure-driven reconnect loop for the market stream after a disconnect:
`n` counts the consecutive connection failures still ahead. Each call models
one invocation of `scheduleReconnect`; when a timer was scheduled, the timer
body aborts on a manual close, and otherwise retries the connection, which
fails while failures remain (`n+1` case, leading to the next
`scheduleReconnect`) and succeeds once they are exhausted (`0` case, where
the market stream open handler resets the attempt counter). -/
def reconnectLoop : ℕ → StandXWebSocket → StandXWebSocket × List WSEvent
  | 0, s =>
    let r := scheduleReconnect s
    match r.2.2 with
    | none => (r.1, r.2.1)
    | some _ =>
      if r.1.isManualClose then (r.1, r.2.1)
      else ({ r.1 with reconnectAttempts := 0 }, r.2.1 ++ [WSEvent.marketReconnected])
  | n + 1, s =>
    let r := scheduleReconnect s
    match r.2.2 with
    | none => (r.1, r.2.1)
    | some _ =>
      if r.1.isManualClose then (r.1, r.2.1)
      else
        let r2 := reconnectLoop n r.1
        (r2.1, r.2.1 ++ r2.2)

/-- Number of `max_reconnect_reached` emissions in an event trace. -/
def countExhausted : List WSEvent → ℕ
  | [] => 0
  | WSEvent.maxReconnectReached :: rest => countExhausted rest + 1
  | _ :: rest => countExhausted rest

/-- Concrete fixture: a freshly constructed socket
(`reconnectAttempts = 0`, `maxReconnectAttempts = 30`,
`reconnectDelay = 1000`, not manually closed). -/
def ws0 : StandXWebSocket :=
  { reconnectAttempts := 0, maxReconnectAttempts := 30,
    reconnectDelay := 1000, isManualClose := false }

/-- Concrete fixture: `bot0` while a fill is being processed. -/
def botBusy : MakerPointsBot := { bot0 with isProcessingFill := true }

/-- Concrete fixture: `bot0` after a stop has been requested. -/
def botStopped : MakerPointsBot := { bot0 with stopRequested := true }

/-- Concrete fixture: the benign environment but with a failing close call. -/
def envCloseFail : Env := { env0 with closeOk := false }

/-- Concrete fixture: `bot0` with a best bid of 99.7 — below the resting buy
at 99.8, so the spread-crossing guard fires for the buy side. -/
def botCrossed : MakerPointsBot := { bot0 with spreadBid := some (997 / 10) }

/-- Concrete fixture: a controller paused for volatility (both slots cleared). -/
def botPaused : MakerPointsBot :=
  { bot0 with
      isPausedDueToVolatility := true
      state := { bot0.state with buyOrder := none, sellOrder := none } }

/-- Concrete fixture: a quiet controller seeing a last trade of 100.3 —
a 30 bp gap above the 20 bp target, entering the volatility pause. -/
def botVol : MakerPointsBot := { bot0 with lastPrice := some (1003 / 10) }

/-- Concrete fixture: a paused controller whose gap (17 bp) has dipped below
the 20 bp target but not below the 16 bp re-entry threshold. -/
def botPausedWarm : MakerPointsBot := { botPaused with lastPrice := some (10017 / 100) }

/-- Concrete fixture: a paused controller whose gap (1 bp) is inside the
re-entry band, so quoting resumes. -/
def botPausedCalm : MakerPointsBot := { botPaused with lastPrice := some (1001 / 10) }

/-- Concrete fixture: a snapshot with a gap of 17 bp — below the 20 bp
target yet at or above the 16 bp hysteresis threshold. -/
def snapWarm : Snapshot :=
  { markPrice := 100, lastPrice := some (10017 / 100), spread := none }

/-- Concrete fixture: the benign environment reporting a 0.5 position from
the authoritative query. -/
def envPos : Env := { env0 with currentPosition := 1 / 2 }

/-! Field-preservation lemmas for the small state updaters. -/

@[simp]
theorem setSlot_isRunning (bot : MakerPointsBot) (side : Side) (o : Option Order) :
    (bot.setSlot side o).state.isRunning = bot.state.isRunning := by
  cases side <;> rfl

@[simp]
theorem setSlot_stopRequested (bot : MakerPointsBot) (side : Side) (o : Option Order) :
    (bot.setSlot side o).stopRequested = bot.stopRequested := by
  cases side <;> rfl

@[simp]
theorem setSlot_isProcessingFill (bot : MakerPointsBot) (side : Side) (o : Option Order) :
    (bot.setSlot side o).isProcessingFill = bot.isProcessingFill := by
  cases side <;> rfl

@[simp]
theorem setSlot_paused (bot : MakerPointsBot) (side : Side) (o : Option Order) :
    (bot.setSlot side o).isPausedDueToVolatility = bot.isPausedDueToVolatility := by
  cases side <;> rfl

@[simp]
theorem setSlot_markPrice (bot : MakerPointsBot) (side : Side) (o : Option Order) :
    (bot.setSlot side o).markPrice = bot.markPrice := by
  cases side <;> rfl

@[simp]
theorem setSlot_lastPrice (bot : MakerPointsBot) (side : Side) (o : Option Order) :
    (bot.setSlot side o).lastPrice = bot.lastPrice := by
  cases side <;> rfl

@[simp]
theorem setSlot_spreadBid (bot : MakerPointsBot) (side : Side) (o : Option Order) :
    (bot.setSlot side o).spreadBid = bot.spreadBid := by
  cases side <;> rfl

@[simp]
theorem setSlot_spreadAsk (bot : MakerPointsBot) (side : Side) (o : Option Order) :
    (bot.setSlot side o).spreadAsk = bot.spreadAsk := by
  cases side <;> rfl

@[simp]
theorem setSlot_buy_buyOrder (bot : MakerPointsBot) (o : Option Order) :
    (bot.setSlot .buy o).state.buyOrder = o := rfl

@[simp]
theorem setSlot_buy_sellOrder (bot : MakerPointsBot) (o : Option Order) :
    (bot.setSlot .buy o).state.sellOrder = bot.state.sellOrder := rfl

@[simp]
theorem setSlot_sell_sellOrder (bot : MakerPointsBot) (o : Option Order) :
    (bot.setSlot .sell o).state.sellOrder = o := rfl

@[simp]
theorem setSlot_sell_buyOrder (bot : MakerPointsBot) (o : Option Order) :
    (bot.setSlot .sell o).state.buyOrder = bot.state.buyOrder := rfl

@[simp]
theorem incPlaced_isRunning (bot : MakerPointsBot) :
    bot.incPlaced.state.isRunning = bot.state.isRunning := rfl

@[simp]
theorem incPlaced_stopRequested (bot : MakerPointsBot) :
    bot.incPlaced.stopRequested = bot.stopRequested := rfl

@[simp]
theorem incPlaced_isProcessingFill (bot : MakerPointsBot) :
    bot.incPlaced.isProcessingFill = bot.isProcessingFill := rfl

@[simp]
theorem incPlaced_paused (bot : MakerPointsBot) :
    bot.incPlaced.isPausedDueToVolatility = bot.isPausedDueToVolatility := rfl

@[simp]
theorem incPlaced_markPrice (bot : MakerPointsBot) :
    bot.incPlaced.markPrice = bot.markPrice := rfl

@[simp]
theorem incPlaced_lastPrice (bot : MakerPointsBot) :
    bot.incPlaced.lastPrice = bot.lastPrice := rfl

@[simp]
theorem incPlaced_spreadBid (bot : MakerPointsBot) :
    bot.incPlaced.spreadBid = bot.spreadBid := rfl

@[simp]
theorem incPlaced_spreadAsk (bot : MakerPointsBot) :
    bot.incPlaced.spreadAsk = bot.spreadAsk := rfl

@[simp]
theorem incPlaced_buyOrder (bot : MakerPointsBot) :
    bot.incPlaced.state.buyOrder = bot.state.buyOrder := rfl

@[simp]
theorem incPlaced_sellOrder (bot : MakerPointsBot) :
    bot.incPlaced.state.sellOrder = bot.state.sellOrder := rfl

@[simp]
theorem incCanceled_isRunning (bot : MakerPointsBot) :
    bot.incCanceled.state.isRunning = bot.state.isRunning := rfl

@[simp]
theorem incCanceled_stopRequested (bot : MakerPointsBot) :
    bot.incCanceled.stopRequested = bot.stopRequested := rfl

@[simp]
theorem incCanceled_isProcessingFill (bot : MakerPointsBot) :
    bot.incCanceled.isProcessingFill = bot.isProcessingFill := rfl

@[simp]
theorem incCanceled_paused (bot : MakerPointsBot) :
    bot.incCanceled.isPausedDueToVolatility = bot.isPausedDueToVolatility := rfl

@[simp]
theorem incCanceled_markPrice (bot : MakerPointsBot) :
    bot.incCanceled.markPrice = bot.markPrice := rfl

@[simp]
theorem incCanceled_lastPrice (bot : MakerPointsBot) :
    bot.incCanceled.lastPrice = bot.lastPrice := rfl

@[simp]
theorem incCanceled_spreadBid (bot : MakerPointsBot) :
    bot.incCanceled.spreadBid = bot.spreadBid := rfl

@[simp]
theorem incCanceled_spreadAsk (bot : MakerPointsBot) :
    bot.incCanceled.spreadAsk = bot.spreadAsk := rfl

@[simp]
theorem incCanceled_buyOrder (bot : MakerPointsBot) :
    bot.incCanceled.state.buyOrder = bot.state.buyOrder := rfl

@[simp]
theorem incCanceled_sellOrder (bot : MakerPointsBot) :
    bot.incCanceled.state.sellOrder = bot.state.sellOrder := rfl

@[simp]
theorem clearFilledSlot_isRunning (bot : MakerPointsBot) (side : Side) (oid : String) :
    (clearFilledSlot bot side oid).state.isRunning = bot.state.isRunning := by
  unfold clearFilledSlot
  cases side <;> (repeat' split) <;> rfl

@[simp]
theorem clearFilledSlot_stopRequested (bot : MakerPointsBot) (side : Side) (oid : String) :
    (clearFilledSlot bot side oid).stopRequested = bot.stopRequested := by
  unfold clearFilledSlot
  cases side <;> (repeat' split) <;> rfl

@[simp]
theorem clearFilledSlot_isProcessingFill (bot : MakerPointsBot) (side : Side) (oid : String) :
    (clearFilledSlot bot side oid).isProcessingFill = bot.isProcessingFill := by
  unfold clearFilledSlot
  cases side <;> (repeat' split) <;> rfl

/-! Lemmas about `replaceOrder` and `placeConfiguredOrders`. -/

theorem replaceOrder_ctrl (cfg : TradingConfig) (env : Env) (bot : MakerPointsBot)
    (side : Side) (fresh : Bool) :
    (replaceOrder cfg env bot side fresh).1.state.isRunning = bot.state.isRunning ∧
    (replaceOrder cfg env bot side fresh).1.stopRequested = bot.stopRequested ∧
    (replaceOrder cfg env bot side fresh).1.isProcessingFill = bot.isProcessingFill ∧
    (replaceOrder cfg env bot side fresh).1.isPausedDueToVolatility =
      bot.isPausedDueToVolatility ∧
    (replaceOrder cfg env bot side fresh).1.lastPrice = bot.lastPrice ∧
    (replaceOrder cfg env bot side fresh).1.spreadBid = bot.spreadBid ∧
    (replaceOrder cfg env bot side fresh).1.spreadAsk = bot.spreadAsk := by
  unfold replaceOrder
  cases fresh <;> cases h1 : bot.slot side <;> cases h2 : env.freshMark <;>
    cases h3 : env.place side <;> cases h4 : env.cancelOk <;>
    first | rfl | simp_all

theorem replaceOrder_markPrice_cached (cfg : TradingConfig) (env : Env)
    (bot : MakerPointsBot) (side : Side) :
    (replaceOrder cfg env bot side false).1.markPrice = bot.markPrice := by
  unfold replaceOrder
  cases h1 : bot.slot side <;> cases h2 : env.freshMark <;>
    cases h3 : env.place side <;> cases h4 : env.cancelOk <;>
    first | rfl | simp_all

theorem replaceOrder_buy_sellOrder (cfg : TradingConfig) (env : Env)
    (bot : MakerPointsBot) (fresh : Bool) :
    (replaceOrder cfg env bot .buy fresh).1.state.sellOrder = bot.state.sellOrder := by
  unfold replaceOrder
  cases fresh <;> cases h1 : bot.state.buyOrder <;> cases h2 : env.freshMark <;>
    cases h3 : env.placeBuy <;> cases h4 : env.cancelOk <;>
    first | rfl | simp_all [MakerPointsBot.slot, Env.place]

theorem replaceOrder_sell_buyOrder (cfg : TradingConfig) (env : Env)
    (bot : MakerPointsBot) (fresh : Bool) :
    (replaceOrder cfg env bot .sell fresh).1.state.buyOrder = bot.state.buyOrder := by
  unfold replaceOrder
  cases fresh <;> cases h1 : bot.state.sellOrder <;> cases h2 : env.freshMark <;>
    cases h3 : env.placeSell <;> cases h4 : env.cancelOk <;>
    first | rfl | simp_all [MakerPointsBot.slot, Env.place]

theorem replaceOrder_acts_of_slot (cfg : TradingConfig) (env : Env)
    (bot : MakerPointsBot) (side : Side) (o : Order) (h : bot.slot side = some o) :
    (replaceOrder cfg env bot side false).2 =
      [Action.cancelOrder o.orderId,
       Action.placeOrder side cfg.orderSizeBtc
         (calculateOrderPrice side bot.markPrice cfg.orderDistanceBp)] := by
  unfold replaceOrder
  rw [h]
  repeat' split <;> first | rfl | simp_all

theorem countCloseOrders_append (l1 l2 : List Action) :
    countCloseOrders (l1 ++ l2) = countCloseOrders l1 + countCloseOrders l2 := by
  induction l1 with
  | nil => simp [countCloseOrders]
  | cons a t ih => cases a <;> (simp [countCloseOrders, ih]; try omega)

theorem countCloseOrders_replaceOrder (cfg : TradingConfig) (env : Env)
    (bot : MakerPointsBot) (side : Side) (fresh : Bool) :
    countCloseOrders (replaceOrder cfg env bot side fresh).2 = 0 := by
  unfold replaceOrder
  cases fresh <;> cases h1 : bot.slot side <;> cases h2 : env.freshMark <;>
    cases h3 : env.place side <;> cases h4 : env.cancelOk <;>
    first | rfl | simp_all [countCloseOrders]

theorem countCloseOrders_placeConfigured (cfg : TradingConfig) (env : Env)
    (bot : MakerPointsBot) :
    countCloseOrders (placeConfiguredOrders cfg env bot).2 = 0 := by
  unfold placeConfiguredOrders
  cases hb : cfg.mode.includesBuy <;> cases hs : cfg.mode.includesSell <;>
    cases h3 : env.placeBuy <;> cases h4 : env.placeSell <;>
    first | rfl | simp_all [countCloseOrders]

theorem placeConfigured_ctrl (cfg : TradingConfig) (env : Env) (bot : MakerPointsBot) :
    (placeConfiguredOrders cfg env bot).1.state.isRunning = bot.state.isRunning ∧
    (placeConfiguredOrders cfg env bot).1.stopRequested = bot.stopRequested ∧
    (placeConfiguredOrders cfg env bot).1.isProcessingFill = bot.isProcessingFill ∧
    (placeConfiguredOrders cfg env bot).1.isPausedDueToVolatility =
      bot.isPausedDueToVolatility ∧
    (placeConfiguredOrders cfg env bot).1.markPrice = bot.markPrice := by
  unfold placeConfiguredOrders
  cases hb : cfg.mode.includesBuy <;> cases hs : cfg.mode.includesSell <;>
    cases h3 : env.placeBuy <;> cases h4 : env.placeSell <;>
    first | rfl | simp_all

theorem placeConfigured_buyMem (cfg : TradingConfig) (env : Env) (bot : MakerPointsBot)
    (h : cfg.mode.includesBuy = true) :
    Action.placeOrder .buy cfg.orderSizeBtc
        (calculateOrderPrice .buy bot.markPrice cfg.orderDistanceBp) ∈
      (placeConfiguredOrders cfg env bot).2 := by
  unfold placeConfiguredOrders
  repeat' split <;> simp_all

theorem placeConfigured_sellMem (cfg : TradingConfig) (env : Env) (bot : MakerPointsBot)
    (h : cfg.mode.includesSell = true) :
    Action.placeOrder .sell cfg.orderSizeBtc
        (calculateOrderPrice .sell bot.markPrice cfg.orderDistanceBp) ∈
      (placeConfiguredOrders cfg env bot).2 := by
  unfold placeConfiguredOrders
  repeat' split <;> simp_all

/-! Lemmas about the volatility gate, the spread check and the distance check. -/

theorem volatilityGate_noLast (cfg : TradingConfig) (env : Env) (bot : MakerPointsBot)
    (h : bot.lastPrice = none) :
    volatilityGate cfg env bot = Sum.inr (bot, []) := by
  simp [volatilityGate, h]

theorem volatilityGate_quiet (cfg : TradingConfig) (env : Env) (bot : MakerPointsBot)
    (lp : ℚ) (h : bot.lastPrice = some lp)
    (hp : bot.isPausedDueToVolatility = false)
    (hg : lastMarkGapBp lp bot.markPrice ≤ cfg.orderDistanceBp) :
    volatilityGate cfg env bot = Sum.inr (bot, []) := by
  simp [volatilityGate, h, hp, not_lt.mpr hg]

theorem volatilityGate_entry (cfg : TradingConfig) (env : Env) (bot : MakerPointsBot)
    (lp : ℚ) (h : bot.lastPrice = some lp)
    (hp : bot.isPausedDueToVolatility = false)
    (hg : cfg.orderDistanceBp < lastMarkGapBp lp bot.markPrice) :
    volatilityGate cfg env bot =
      Sum.inl
        ({ bot with
            isPausedDueToVolatility := true
            state := { bot.state with buyOrder := none, sellOrder := none } },
         [Action.cancelAll]) := by
  simp [volatilityGate, h, hp, hg]

theorem volatilityGate_stayPaused (cfg : TradingConfig) (env : Env) (bot : MakerPointsBot)
    (lp : ℚ) (h : bot.lastPrice = some lp)
    (hp : bot.isPausedDueToVolatility = true)
    (hg : cfg.orderDistanceBp * (8 / 10) ≤ lastMarkGapBp lp bot.markPrice) :
    volatilityGate cfg env bot = Sum.inl (bot, []) := by
  unfold volatilityGate
  rw [h]
  by_cases hlt : cfg.orderDistanceBp < lastMarkGapBp lp bot.markPrice
  · simp [hlt, hp]
  · simp [hlt, hp, not_lt.mpr hg]

theorem volatilityGate_resume (cfg : TradingConfig) (env : Env) (bot : MakerPointsBot)
    (lp : ℚ) (h : bot.lastPrice = some lp)
    (hp : bot.isPausedDueToVolatility = true)
    (hg : lastMarkGapBp lp bot.markPrice < cfg.orderDistanceBp * (8 / 10))
    (hT : 0 ≤ cfg.orderDistanceBp) :
    volatilityGate cfg env bot =
      Sum.inr (placeConfiguredOrders cfg env
        { bot with isPausedDueToVolatility := false }) := by
  have hle : lastMarkGapBp lp bot.markPrice ≤ cfg.orderDistanceBp := by nlinarith
  simp [volatilityGate, h, hp, hg, not_lt.mpr hle]

theorem spreadCheck_noSpread (cfg : TradingConfig) (env : Env) (bot : MakerPointsBot)
    (h : bot.spreadBid = none ∨ bot.spreadAsk = none) :
    spreadCheck cfg env bot = Sum.inr (bot, []) := by
  unfold spreadCheck
  rcases h with h | h <;> rw [h] <;>
    first
    | rfl
    | cases bot.spreadBid <;> rfl
    | cases bot.spreadAsk <;> rfl

theorem spreadCheck_buyCross (cfg : TradingConfig) (env : Env) (bot : MakerPointsBot)
    (bid ask : ℚ) (bo : Order)
    (hb : bot.spreadBid = some bid) (ha : bot.spreadAsk = some ask)
    (ho : bot.state.buyOrder = some bo) (hopen : bo.status = "OPEN")
    (hcross : bid ≤ bo.price) :
    spreadCheck cfg env bot = Sum.inl (replaceOrder cfg env bot .buy false) := by
  simp [spreadCheck, hb, ha, ho, hopen, hcross]

theorem spreadCheck_sellCross (cfg : TradingConfig) (env : Env) (bot : MakerPointsBot)
    (bid ask : ℚ) (so : Order)
    (hb : bot.spreadBid = some bid) (ha : bot.spreadAsk = some ask)
    (hbuy : ∀ bo, bot.state.buyOrder = some bo → bo.status = "OPEN" → bo.price < bid)
    (hso : bot.state.sellOrder = some so) (hopen : so.status = "OPEN")
    (hcross : so.price ≤ ask) :
    spreadCheck cfg env bot = Sum.inl (replaceOrder cfg env bot .sell false) := by
  unfold spreadCheck spreadCheckSell
  rw [hb, ha]
  cases hbo : bot.state.buyOrder with
  | none => simp [hso, hopen, hcross]
  | some bo =>
    by_cases hst : bo.status = "OPEN"
    · simp [hst, not_le.mpr (hbuy bo hbo hst), hso, hopen, hcross]
    · simp [hst, hso, hopen, hcross]

theorem spreadCheckSell_clean (cfg : TradingConfig) (env : Env) (bot : MakerPointsBot)
    (ask : ℚ)
    (hsell : ∀ so, bot.state.sellOrder = some so → so.status = "OPEN" → ask < so.price) :
    spreadCheckSell cfg env bot ask = Sum.inr (bot, []) := by
  unfold spreadCheckSell
  cases hso : bot.state.sellOrder with
  | none => rfl
  | some so =>
    by_cases hst : so.status = "OPEN"
    · simp [hst, not_le.mpr (hsell so hso hst)]
    · simp [hst]

theorem spreadCheck_clean (cfg : TradingConfig) (env : Env) (bot : MakerPointsBot)
    (hbuy : ∀ bid bo, bot.spreadBid = some bid → bot.state.buyOrder = some bo →
      bo.status = "OPEN" → bo.price < bid)
    (hsell : ∀ ask so, bot.spreadAsk = some ask → bot.state.sellOrder = some so →
      so.status = "OPEN" → ask < so.price) :
    spreadCheck cfg env bot = Sum.inr (bot, []) := by
  unfold spreadCheck
  cases hb : bot.spreadBid with
  | none => rfl
  | some bid =>
    cases ha : bot.spreadAsk with
    | none => rfl
    | some ask =>
      have hsc := spreadCheckSell_clean cfg env bot ask
        (fun so hso hst => hsell ask so ha hso hst)
      dsimp only
      cases hbo : bot.state.buyOrder with
      | none => exact hsc
      | some bo =>
        dsimp only
        by_cases hst : bo.status = "OPEN"
        · rw [if_neg (by simp [hst, not_le.mpr (hbuy bid bo hb hbo hst)])]
          exact hsc
        · rw [if_neg (by simp [hst])]
          exact hsc

theorem distanceCheckSide_inBand (cfg : TradingConfig) (env : Env) (bot : MakerPointsBot)
    (side : Side) (o : Order) (h : bot.slot side = some o) (ho : o.status = "OPEN")
    (hlo : cfg.minDistanceBp ≤ distanceBpOf bot.markPrice o)
    (hhi : distanceBpOf bot.markPrice o ≤ cfg.maxDistanceBp) :
    distanceCheckSide cfg env bot side = (bot, []) := by
  simp [distanceCheckSide, h, ho, not_lt.mpr hlo, not_lt.mpr hhi]

theorem distanceCheckSide_empty (cfg : TradingConfig) (env : Env) (bot : MakerPointsBot)
    (side : Side) (h : bot.slot side = none) :
    distanceCheckSide cfg env bot side = (bot, []) := by
  simp [distanceCheckSide, h]

theorem countCloseOrders_distanceCheckSide (cfg : TradingConfig) (env : Env)
    (bot : MakerPointsBot) (side : Side) :
    countCloseOrders (distanceCheckSide cfg env bot side).2 = 0 := by
  unfold distanceCheckSide
  cases h : bot.slot side with
  | none => rfl
  | some o =>
    by_cases hst : o.status = "OPEN"
    · by_cases hd : distanceBpOf bot.markPrice o < cfg.minDistanceBp ∨
          cfg.maxDistanceBp < distanceBpOf bot.markPrice o
      · simp [hst, hd, countCloseOrders_replaceOrder]
      · simp [hst, hd, countCloseOrders]
    · simp [hst, countCloseOrders]

theorem countCloseOrders_distanceCheck (cfg : TradingConfig) (env : Env)
    (bot : MakerPointsBot) :
    countCloseOrders (distanceCheck cfg env bot).2 = 0 := by
  unfold distanceCheck
  simp [countCloseOrders_append, countCloseOrders_distanceCheckSide]

theorem countCloseOrders_volatilityGate (cfg : TradingConfig) (env : Env)
    (bot : MakerPointsBot) :
    countCloseOrders (sumActs (volatilityGate cfg env bot)) = 0 := by
  unfold volatilityGate
  cases hl : bot.lastPrice with
  | none => rfl
  | some lp =>
    dsimp only
    by_cases h1 : cfg.orderDistanceBp < lastMarkGapBp lp bot.markPrice
    · by_cases h2 : bot.isPausedDueToVolatility = true
      · simp [h1, h2, sumActs, countCloseOrders]
      · simp [h1, h2, sumActs, countCloseOrders]
    · by_cases h2 : bot.isPausedDueToVolatility = true ∧
          lastMarkGapBp lp bot.markPrice < cfg.orderDistanceBp * (8 / 10)
      · simp [h1, h2, sumActs, countCloseOrders_placeConfigured]
      · by_cases h3 : bot.isPausedDueToVolatility = true
        · have h4 : ¬ lastMarkGapBp lp bot.markPrice < cfg.orderDistanceBp * (8 / 10) :=
            fun hlt => h2 ⟨h3, hlt⟩
          simp [h1, h3, h4, sumActs, countCloseOrders]
        · simp [h1, h2, h3, sumActs, countCloseOrders]

theorem countCloseOrders_spreadCheckSell (cfg : TradingConfig) (env : Env)
    (bot : MakerPointsBot) (ask : ℚ) :
    countCloseOrders (sumActs (spreadCheckSell cfg env bot ask)) = 0 := by
  unfold spreadCheckSell
  cases hso : bot.state.sellOrder with
  | none => rfl
  | some so =>
    dsimp only
    by_cases hc : (so.status == "OPEN") = true ∧ so.price ≤ ask
    · simp only [if_pos hc, sumActs]
      exact countCloseOrders_replaceOrder ..
    · simp only [if_neg hc, sumActs]
      rfl

theorem countCloseOrders_spreadCheck (cfg : TradingConfig) (env : Env)
    (bot : MakerPointsBot) :
    countCloseOrders (sumActs (spreadCheck cfg env bot)) = 0 := by
  unfold spreadCheck
  cases hb : bot.spreadBid with
  | none => rfl
  | some bid =>
    cases ha : bot.spreadAsk with
    | none => rfl
    | some ask =>
      dsimp only
      cases hbo : bot.state.buyOrder with
      | none => exact countCloseOrders_spreadCheckSell ..
      | some bo =>
        dsimp only
        by_cases hc : (bo.status == "OPEN") = true ∧ bid ≤ bo.price
        · simp only [if_pos hc, sumActs]
          exact countCloseOrders_replaceOrder ..
        · simp only [if_neg hc]
          exact countCloseOrders_spreadCheckSell ..

theorem countCloseOrders_quotingChecks (cfg : TradingConfig) (env : Env)
    (bot : MakerPointsBot) :
    countCloseOrders (quotingChecks cfg env bot).2 = 0 := by
  unfold quotingChecks
  cases hg : volatilityGate cfg env bot with
  | inl r =>
    have h := countCloseOrders_volatilityGate cfg env bot
    rw [hg] at h
    exact h
  | inr r =>
    have h1 : countCloseOrders r.2 = 0 := by
      have h := countCloseOrders_volatilityGate cfg env bot
      rw [hg] at h
      exact h
    dsimp only
    cases hs : spreadCheck cfg env r.1 with
    | inl r2 =>
      have h2 : countCloseOrders r2.2 = 0 := by
        have h := countCloseOrders_spreadCheck cfg env r.1
        rw [hs] at h
        exact h
      simp [countCloseOrders_append, h1, h2]
    | inr r2 =>
      have h2 : countCloseOrders r2.2 = 0 := by
        have h := countCloseOrders_spreadCheck cfg env r.1
        rw [hs] at h
        exact h
      simp [countCloseOrders_append, h1, h2, countCloseOrders_distanceCheck]

/-! Structural lemmas for `quotingChecks`, `checkAndReplaceOrders` and
`closeDetectedPosition`. -/

theorem volatilityGate_inr_of_quiet (cfg : TradingConfig) (env : Env)
    (bot : MakerPointsBot)
    (hpause : bot.isPausedDueToVolatility = false)
    (hgap : ∀ lp, bot.lastPrice = some lp →
      lastMarkGapBp lp bot.markPrice ≤ cfg.orderDistanceBp) :
    volatilityGate cfg env bot = Sum.inr (bot, []) := by
  cases hl : bot.lastPrice with
  | none => exact volatilityGate_noLast cfg env bot hl
  | some lp => exact volatilityGate_quiet cfg env bot lp hl hpause (hgap lp hl)

theorem quotingChecks_gateEarly (cfg : TradingConfig) (env : Env)
    (bot : MakerPointsBot) (r : MakerPointsBot × List Action)
    (hg : volatilityGate cfg env bot = Sum.inl r) :
    quotingChecks cfg env bot = r := by
  unfold quotingChecks
  rw [hg]

theorem quotingChecks_spreadHit (cfg : TradingConfig) (env : Env)
    (bot : MakerPointsBot) (r : MakerPointsBot × List Action)
    (hg : volatilityGate cfg env bot = Sum.inr (bot, []))
    (hs : spreadCheck cfg env bot = Sum.inl r) :
    quotingChecks cfg env bot = (r.1, r.2) := by
  unfold quotingChecks
  rw [hg]
  dsimp only
  rw [hs]
  simp

theorem quotingChecks_toDistance (cfg : TradingConfig) (env : Env)
    (bot : MakerPointsBot)
    (hg : volatilityGate cfg env bot = Sum.inr (bot, []))
    (hs : spreadCheck cfg env bot = Sum.inr (bot, [])) :
    quotingChecks cfg env bot =
      ((distanceCheck cfg env bot).1, (distanceCheck cfg env bot).2) := by
  unfold quotingChecks
  rw [hg]
  dsimp only
  rw [hs]
  simp

theorem checkAndReplaceOrders_quiet (cfg : TradingConfig) (env : Env)
    (bot : MakerPointsBot)
    (hrun : bot.state.isRunning = true) (hstop : bot.stopRequested = false)
    (hmark : bot.markPrice ≠ 0) (hfill : bot.isProcessingFill = false)
    (hpos : |env.currentPosition| < positionEps) :
    checkAndReplaceOrders cfg env bot = quotingChecks cfg env bot := by
  simp [checkAndReplaceOrders, hrun, hstop, hmark, hfill, not_le.mpr hpos]

theorem countCloseOrders_placeInitial (cfg : TradingConfig) (env : Env)
    (bot : MakerPointsBot) :
    countCloseOrders (placeInitialOrders cfg env bot).2 = 0 := by
  unfold placeInitialOrders
  simp [countCloseOrders, countCloseOrders_placeConfigured]

theorem countCloseOrders_closeDetected (cfg : TradingConfig) (env : Env)
    (bot : MakerPointsBot) (pos : ℚ) (ok : Bool) :
    countCloseOrders (closeDetectedPosition cfg env bot pos ok).2 = 1 := by
  unfold closeDetectedPosition
  cases ok
  · simp [closePositionCalls, countCloseOrders, countCloseOrders_append,
      MakerPointsBot.stop]
  · simp [closePositionCalls, countCloseOrders, countCloseOrders_append,
      countCloseOrders_placeInitial, countCloseOrders_placeConfigured]

/-!
Claim theorems. Each claim of the specification audit gets exactly one
theorem below (with a witness when the theorem has hypotheses, and a
counterexample where the claim as stated fails on the code).
-/

/-- C2: while the fill-processing flag `isProcessingFill` is set, (a) any
invocation of the price-driven evaluation `checkAndReplaceOrders` returns
without placing or canceling any order and without mutating controller
state, and (b) any further fill notification delivered to
`handleOrderFilled` is dropped without modifying position or orders and
without issuing a close — so of two back-to-back fill notifications only
the first one's close procedure executes. -/
theorem C2_fill_guard_mutual_exclusion (cfg : TradingConfig) (env : Env)
    (bot : MakerPointsBot) (data : FillData) (h : bot.isProcessingFill = true) :
    checkAndReplaceOrders cfg env bot = (bot, []) ∧
    handleOrderFilled cfg env bot data = (bot, []) := by
  constructor
  · unfold checkAndReplaceOrders
    split
    · rfl
    · split
      · rfl
      · simp [h]
  · unfold handleOrderFilled
    simp [h]

/-- C2 witness: the guarded evaluation and the duplicate fill notification
are both no-ops on a concrete busy controller. -/
theorem C2_fill_guard_mutual_exclusion_witness :
    botBusy.isProcessingFill = true ∧
    (checkAndReplaceOrders cfg0 env0 botBusy = (botBusy, []) ∧
     handleOrderFilled cfg0 env0 botBusy fill0 = (botBusy, [])) :=
  ⟨rfl, C2_fill_guard_mutual_exclusion cfg0 env0 botBusy fill0 rfl⟩

/-- C9: every invocation of `handleOrderFilled` that sets the
fill-processing flag resets it on every exit path — the normal return, the
early return after a failed close, a stop landing during the cooldown, the
re-verification flatten, and a throwing close — so the guard can never
remain set after the handler returns and permanently suppress quoting. -/
theorem C9_fill_flag_always_reset (cfg : TradingConfig) (env : Env)
    (bot : MakerPointsBot) (data : FillData) (h : bot.isProcessingFill = false) :
    (handleOrderFilled cfg env bot data).1.isProcessingFill = false := by
  unfold handleOrderFilled
  rw [if_neg (by simp [h])]
  dsimp only
  cases env.closeThrows <;> cases env.closeOk <;> cases env.stopDuringWait <;>
    (repeat' split) <;> first | rfl | simp

/-- C9 witness: the flag is clear after a concrete fill is handled. -/
theorem C9_fill_flag_always_reset_witness :
    bot0.isProcessingFill = false ∧
    (handleOrderFilled cfg0 env0 bot0 fill0).1.isProcessingFill = false :=
  ⟨rfl, C9_fill_flag_always_reset cfg0 env0 bot0 fill0 rfl⟩

/-- C10: every position-magnitude check that gates flattening in the running
control loop treats a position as non-zero exactly when |position| ≥ 0.00001:
(a) the authoritative-position guard in `checkAndReplaceOrders` issues an
offsetting close iff the queried position is at least the epsilon; (b) the
position-change detector in `handlePositionUpdate` closes iff the previous
position was below and the new one at least the epsilon; (c) the post-close
re-verification in `handleOrderFilled` issues a second flatten iff the
re-queried position is at least the epsilon; whereas (d) the startup check
`ensureZeroPosition` triggers a close for any position with |position|
strictly greater than 0. -/
theorem C10_position_epsilon_guards (cfg : TradingConfig) (env : Env)
    (bot botU botF : MakerPointsBot) (q p : ℚ) (data : FillData)
    (ha1 : bot.state.isRunning = true) (ha2 : bot.stopRequested = false)
    (ha3 : bot.markPrice ≠ 0) (ha4 : bot.isProcessingFill = false)
    (hc1 : botF.isProcessingFill = false) (hc2 : env.closeThrows = false)
    (hc3 : env.closeOk = true) (hc4 : env.stopDuringWait = false)
    (hc5 : botF.state.isRunning = true) (hc6 : botF.stopRequested = false) :
    (0 < countCloseOrders (checkAndReplaceOrders cfg env bot).2 ↔
      positionEps ≤ |env.currentPosition|) ∧
    (0 < countCloseOrders (handlePositionUpdate cfg env botU q).2 ↔
      (|botU.state.position| < positionEps ∧ positionEps ≤ |q|)) ∧
    (countCloseOrders (handleOrderFilled cfg env botF data).2 =
      if positionEps ≤ |env.currentPositionAfterWait| then 2 else 1) ∧
    ((ensureZeroPosition env p).2 ≠ [] ↔ 0 < |p|) := by
  refine ⟨?_, ?_, ?_, ?_⟩
  · by_cases hp : positionEps ≤ |env.currentPosition|
    · simp [checkAndReplaceOrders, ha1, ha2, ha3, ha4, hp,
        countCloseOrders_closeDetected]
    · simp [checkAndReplaceOrders, ha1, ha2, ha3, ha4, hp,
        countCloseOrders_quotingChecks]
  · by_cases hq : |botU.state.position| < positionEps ∧ positionEps ≤ |q|
    · simp [handlePositionUpdate, hq, countCloseOrders_closeDetected]
    · simp [handlePositionUpdate, hq, countCloseOrders]
  · unfold handleOrderFilled
    rw [if_neg (by simp [hc1])]
    dsimp only
    rw [hc2, hc3, hc4]
    by_cases hw : positionEps ≤ |env.currentPositionAfterWait|
    · simp [hw, hc5, hc6, closePositionCalls, countCloseOrders,
        countCloseOrders_append, countCloseOrders_closeDetected]
    · simp [hw, hc5, hc6, closePositionCalls, countCloseOrders,
        countCloseOrders_append, countCloseOrders_replaceOrder]
  · by_cases hp0 : 0 < |p|
    · simp [ensureZeroPosition, hp0, closePositionCalls]
    · simp [ensureZeroPosition, hp0]

/-- C10 witness: the four guards evaluated on concrete states — an
authoritative position of 0.5 triggers the in-loop flatten, a position
update from 0 to 0.5 triggers the detector, a clean re-verification leaves
exactly the one fill close, and a 0.000005 position (below the loop epsilon
but above zero) still triggers the startup close. -/
theorem C10_position_epsilon_guards_witness :
    (0 < countCloseOrders (checkAndReplaceOrders cfg0 envPos bot0).2 ↔
      positionEps ≤ |envPos.currentPosition|) ∧
    (0 < countCloseOrders (handlePositionUpdate cfg0 envPos bot0 (1 / 2)).2 ↔
      (|bot0.state.position| < positionEps ∧ positionEps ≤ |(1 / 2 : ℚ)|)) ∧
    (countCloseOrders (handleOrderFilled cfg0 envPos bot0 fill0).2 =
      if positionEps ≤ |envPos.currentPositionAfterWait| then 2 else 1) ∧
    ((ensureZeroPosition envPos (1 / 200000)).2 ≠ [] ↔ 0 < |(1 / 200000 : ℚ)|) :=
  C10_position_epsilon_guards cfg0 envPos bot0 bot0 bot0 (1 / 2) (1 / 200000) fill0
    rfl rfl (by norm_num [bot0]) rfl rfl rfl rfl rfl rfl rfl

/-- C1: for every fill notification handled by `handleOrderFilled` when no
other fill is in progress (and whose close call returns rather than throws,
with the post-cooldown re-verification reading a flat position), the handler
cancels all still-resting orders and then issues exactly one offsetting
close order whose quantity equals the filled quantity and whose side is
opposite to the filled order's side, before any re-quoting: the trace starts
with the cancel-all followed by that close, and no other close order appears
anywhere in the trace. -/
theorem C1_fill_cancel_then_single_close (cfg : TradingConfig) (env : Env)
    (bot : MakerPointsBot) (data : FillData)
    (h1 : bot.isProcessingFill = false) (h2 : env.closeThrows = false)
    (h3 : |env.currentPositionAfterWait| < positionEps) :
    (handleOrderFilled cfg env bot data).2.take 2 =
      [Action.cancelAll, Action.closeOrder data.fillQty data.side.opposite] ∧
    countCloseOrders (handleOrderFilled cfg env bot data).2 = 1 := by
  unfold handleOrderFilled
  rw [if_neg (by simp [h1])]
  dsimp only
  rw [h2]
  refine ⟨?_, ?_⟩ <;>
    (cases hok : env.closeOk <;> cases hsw : env.stopDuringWait <;>
      (repeat' split) <;>
      first
        | exact absurd (by assumption) (not_le.mpr h3)
        | simp_all [closePositionCalls, MakerPointsBot.stop, countCloseOrders,
            countCloseOrders_append, countCloseOrders_replaceOrder])

/-- C1 witness: handling the concrete buy fill issues the cancel-all, then
one sell close for the filled 0.1, and no second close. -/
theorem C1_fill_cancel_then_single_close_witness :
    (handleOrderFilled cfg0 env0 bot0 fill0).2.take 2 =
      [Action.cancelAll, Action.closeOrder fill0.fillQty fill0.side.opposite] ∧
    countCloseOrders (handleOrderFilled cfg0 env0 bot0 fill0).2 = 1 :=
  C1_fill_cancel_then_single_close cfg0 env0 bot0 fill0 rfl rfl
    (by norm_num [env0, positionEps])

/-- C4 counterexample: on the failed-close fatal path the controller does
stop itself (`isRunning = false`), but the order slots are not cleared — the
sell slot still holds a record with venue status OPEN, so the order state is
not consistent with "no orders believed open" as the claim states it. -/
theorem C4_counterexample :
    (handleOrderFilled cfg0 envCloseFail bot0 fill0).1.state.isRunning = false ∧
    ¬((handleOrderFilled cfg0 envCloseFail bot0 fill0).1.state.buyOrder = none ∧
      (handleOrderFilled cfg0 envCloseFail bot0 fill0).1.state.sellOrder = none) ∧
    (handleOrderFilled cfg0 envCloseFail bot0 fill0).1.state.sellOrder = some orderS1 ∧
    orderS1.status = "OPEN" := by
  norm_num [handleOrderFilled, bot0, env0, envCloseFail, fill0, orderB1, orderS1,
    closePositionCalls, MakerPointsBot.stop, Side.opposite]
  exact fun h => by cases h

/-- C4 (amended): if the offsetting close issued during fill handling fails
(`closePosition` returns false), the controller stops itself with no
automatic retry of the close — exactly one close order is ever issued —
and afterwards `isRunning` is false, the stop flag is set, and the trace
ends with a cancel-all (so no orders remain open at the venue); the local
buy/sell order slots, however, are left as they were. -/
theorem C4_close_failure_stops (cfg : TradingConfig) (env : Env)
    (bot : MakerPointsBot) (data : FillData)
    (h1 : bot.isProcessingFill = false) (h2 : env.closeThrows = false)
    (h3 : env.closeOk = false) :
    (handleOrderFilled cfg env bot data).1.state.isRunning = false ∧
    (handleOrderFilled cfg env bot data).1.stopRequested = true ∧
    (handleOrderFilled cfg env bot data).2 =
      closePositionCalls data.fillQty data.side.opposite ++ [Action.cancelAll] ∧
    countCloseOrders (handleOrderFilled cfg env bot data).2 = 1 ∧
    (handleOrderFilled cfg env bot data).1.state.buyOrder = bot.state.buyOrder ∧
    (handleOrderFilled cfg env bot data).1.state.sellOrder = bot.state.sellOrder := by
  unfold handleOrderFilled
  rw [if_neg (by simp [h1])]
  dsimp only
  rw [h2, h3]
  simp [closePositionCalls, MakerPointsBot.stop, countCloseOrders]

/-- C4 witness: the amended behavior on a concrete failed close. -/
theorem C4_close_failure_stops_witness :
    (handleOrderFilled cfg0 envCloseFail bot0 fill0).1.state.isRunning = false ∧
    (handleOrderFilled cfg0 envCloseFail bot0 fill0).1.stopRequested = true ∧
    (handleOrderFilled cfg0 envCloseFail bot0 fill0).2 =
      closePositionCalls fill0.fillQty fill0.side.opposite ++ [Action.cancelAll] ∧
    countCloseOrders (handleOrderFilled cfg0 envCloseFail bot0 fill0).2 = 1 ∧
    (handleOrderFilled cfg0 envCloseFail bot0 fill0).1.state.buyOrder =
      bot0.state.buyOrder ∧
    (handleOrderFilled cfg0 envCloseFail bot0 fill0).1.state.sellOrder =
      bot0.state.sellOrder :=
  C4_close_failure_stops cfg0 envCloseFail bot0 fill0 rfl rfl rfl

/-- C8 counterexample: with the stop flag already set, `placeInitialOrders`
still issues its cancel-all (and placements), `closeDetectedPosition` still
issues its cancel-all and close, and `handleOrderFilled` still issues the
offsetting close — none of the three multi-step procedures checks the global
stop flag at its start and aborts with no venue calls, contrary to the
claim. -/
theorem C8_counterexample :
    botStopped.stopRequested = true ∧
    (placeInitialOrders cfg0 env0 botStopped).2.head? = some Action.cancelAll ∧
    (closeDetectedPosition cfg0 env0 botStopped (1 / 2) true).2.head? =
      some Action.cancelAll ∧
    countCloseOrders (handleOrderFilled cfg0 env0 botStopped fill0).2 = 1 := by
  refine ⟨rfl, rfl, rfl, ?_⟩
  norm_num [handleOrderFilled, botStopped, bot0, env0, fill0, closePositionCalls,
    countCloseOrders, Side.opposite]

/-- C8 (amended): only the price-driven evaluation `checkAndReplaceOrders`
checks the stop flag at its start and returns without issuing any venue
call once a stop has been requested. `placeInitialOrders` and
`closeDetectedPosition` perform no stop-flag check and issue their venue
calls even after a stop has been requested, and `handleOrderFilled` issues
the offsetting close regardless, checking the flag only after the cooldown,
where it aborts just the re-quoting (the trace is exactly the close calls). -/
theorem C8_stop_flag_checked_only_in_evaluation (cfg : TradingConfig) (env : Env)
    (bot bot2 bot3 bot4 : MakerPointsBot) (data : FillData) (pos : ℚ) (ok : Bool)
    (h1 : bot.stopRequested = true)
    (h2 : bot2.stopRequested = true)
    (h3 : bot3.stopRequested = true)
    (h4 : bot4.stopRequested = true) (h5 : bot4.isProcessingFill = false)
    (h6 : env.closeThrows = false) (h7 : env.closeOk = true) :
    checkAndReplaceOrders cfg env bot = (bot, []) ∧
    (placeInitialOrders cfg env bot2).2.head? = some Action.cancelAll ∧
    countCloseOrders (closeDetectedPosition cfg env bot3 pos ok).2 = 1 ∧
    (handleOrderFilled cfg env bot4 data).2 =
      closePositionCalls data.fillQty data.side.opposite := by
  refine ⟨?_, rfl, countCloseOrders_closeDetected cfg env bot3 pos ok, ?_⟩
  · unfold checkAndReplaceOrders
    rw [if_pos (by simp [h1])]
  · unfold handleOrderFilled
    rw [if_neg (by simp [h5])]
    dsimp only
    rw [h6, h7]
    cases hsw : env.stopDuringWait <;>
      simp [h4, closePositionCalls]

/-- C8 witness: the amended behavior on concrete stopped controllers. -/
theorem C8_stop_flag_checked_only_in_evaluation_witness :
    checkAndReplaceOrders cfg0 env0 botStopped = (botStopped, []) ∧
    (placeInitialOrders cfg0 env0 botStopped).2.head? = some Action.cancelAll ∧
    countCloseOrders (closeDetectedPosition cfg0 env0 botStopped (1 / 2) true).2 = 1 ∧
    (handleOrderFilled cfg0 env0 botStopped fill0).2 =
      closePositionCalls fill0.fillQty fill0.side.opposite :=
  C8_stop_flag_checked_only_in_evaluation cfg0 env0 botStopped botStopped botStopped
    botStopped fill0 (1 / 2) true rfl rfl rfl rfl rfl rfl rfl

/-! Lemmas for the reconnect loop. -/

theorem countExhausted_append (l1 l2 : List WSEvent) :
    countExhausted (l1 ++ l2) = countExhausted l1 + countExhausted l2 := by
  induction l1 with
  | nil => simp [countExhausted]
  | cons a t ih => cases a <;> (simp [countExhausted, ih]; try omega)

theorem countExhausted_map_safe (f : ℕ → WSEvent) (l : List ℕ)
    (hf : ∀ k, f k ≠ WSEvent.maxReconnectReached) :
    countExhausted (l.map f) = 0 := by
  induction l with
  | nil => rfl
  | cons a t ih =>
    rw [List.map_cons]
    cases hfa : f a with
    | maxReconnectReached => exact absurd hfa (hf a)
    | reconnecting x y => simp [countExhausted, hfa, ih]
    | marketReconnected => simp [countExhausted, hfa, ih]

theorem range_map_reconnecting_shift (a m base : ℕ) (hlt : a < m) :
    (List.range (m - a)).map
      (fun k => WSEvent.reconnecting (a + k + 1) (min (base * 2 ^ (a + k)) 30000)) =
    WSEvent.reconnecting (a + 1) (min (base * 2 ^ a) 30000) ::
      (List.range (m - (a + 1))).map
        (fun k => WSEvent.reconnecting (a + 1 + k + 1)
          (min (base * 2 ^ (a + 1 + k)) 30000)) := by
  have h : m - a = (m - (a + 1)) + 1 := by omega
  rw [h, List.range_succ_eq_map, List.map_cons, List.map_map]
  refine congrArg₂ List.cons (by norm_num) ?_
  congr 1
  funext k
  have h1 : a + Nat.succ k = a + 1 + k := by omega
  simp [Function.comp, h1]

theorem reconnectLoop_exhaust (n : ℕ) :
    ∀ s : StandXWebSocket, s.isManualClose = false →
      s.reconnectAttempts ≤ s.maxReconnectAttempts →
      s.maxReconnectAttempts ≤ s.reconnectAttempts + n →
      reconnectLoop n s =
        ({ s with reconnectAttempts := s.maxReconnectAttempts },
         (List.range (s.maxReconnectAttempts - s.reconnectAttempts)).map
           (fun k => WSEvent.reconnecting (s.reconnectAttempts + k + 1)
             (min (s.reconnectDelay * 2 ^ (s.reconnectAttempts + k)) 30000)) ++
         [WSEvent.maxReconnectReached]) := by
  induction n with
  | zero =>
    intro s hman hle hge
    obtain ⟨a, m, d, mc⟩ := s
    dsimp at hle hge ⊢
    have heq : m = a := by omega
    subst heq
    unfold reconnectLoop scheduleReconnect
    simp
  | succ k ih =>
    intro s hman hle hge
    by_cases hmax : s.maxReconnectAttempts ≤ s.reconnectAttempts
    · obtain ⟨a, m, d, mc⟩ := s
      dsimp at hle hmax ⊢
      have heq : m = a := by omega
      subst heq
      unfold reconnectLoop scheduleReconnect
      simp
    · push_neg at hmax
      have hstep := ih
        { reconnectAttempts := s.reconnectAttempts + 1,
          maxReconnectAttempts := s.maxReconnectAttempts,
          reconnectDelay := s.reconnectDelay,
          isManualClose := false }
        rfl (by dsimp; omega) (by dsimp; omega)
      unfold reconnectLoop scheduleReconnect
      rw [if_neg (by omega)]
      dsimp only
      rw [hman]
      rw [if_neg (by simp)]
      rw [hstep]
      rw [range_map_reconnecting_shift s.reconnectAttempts s.maxReconnectAttempts
        s.reconnectDelay hmax]
      rfl

/-- C5: for every disconnect of a streaming channel not caused by an
explicit stop, the k-th scheduled reconnect uses delay
min(baseDelay × 2^k, maxDelay) with the attempt counter incremented each
time; once the attempt counter reaches the configured maximum attempt
count, the terminal exhausted event (`max_reconnect_reached`) is emitted
exactly once and no further reconnect attempts occur: with at least
`maxReconnectAttempts` consecutive failures ahead, the full event trace is
the `max` reconnecting events with the capped exponential delays followed
by the single terminal event and nothing after it. -/
theorem C5_reconnect_backoff_and_exhaustion (s : StandXWebSocket) (n : ℕ)
    (hman : s.isManualClose = false) (h0 : s.reconnectAttempts = 0)
    (hn : s.maxReconnectAttempts ≤ n) :
    (∀ k, k < s.maxReconnectAttempts →
      scheduleReconnect { s with reconnectAttempts := k } =
        ({ s with reconnectAttempts := k + 1 },
         [WSEvent.reconnecting (k + 1) (min (s.reconnectDelay * 2 ^ k) 30000)],
         some (min (s.reconnectDelay * 2 ^ k) 30000))) ∧
    scheduleReconnect { s with reconnectAttempts := s.maxReconnectAttempts } =
      ({ s with reconnectAttempts := s.maxReconnectAttempts },
       [WSEvent.maxReconnectReached], none) ∧
    (reconnectLoop n s).2 =
      (List.range s.maxReconnectAttempts).map
        (fun k => WSEvent.reconnecting (k + 1)
          (min (s.reconnectDelay * 2 ^ k) 30000)) ++
      [WSEvent.maxReconnectReached] ∧
    countExhausted (reconnectLoop n s).2 = 1 := by
  have hloop := reconnectLoop_exhaust n s hman (by omega) (by omega)
  have hevents := congrArg Prod.snd hloop
  dsimp at hevents
  rw [h0] at hevents
  simp only [Nat.sub_zero, Nat.zero_add] at hevents
  refine ⟨?_, ?_, hevents, ?_⟩
  · intro k hk
    obtain ⟨a, m, d, mc⟩ := s
    dsimp at hk
    unfold scheduleReconnect
    rw [if_neg (by dsimp; omega)]
  · obtain ⟨a, m, d, mc⟩ := s
    unfold scheduleReconnect
    rw [if_pos (by simp)]
  · rw [hevents, countExhausted_append,
      countExhausted_map_safe _ _ (fun k => by simp)]
    rfl

/-- C5 witness: a fresh socket (base delay 1000 ms, cap 30000 ms, 30 max
attempts) driven through 30 consecutive failures. -/
theorem C5_reconnect_backoff_and_exhaustion_witness :
    (∀ k, k < ws0.maxReconnectAttempts →
      scheduleReconnect { ws0 with reconnectAttempts := k } =
        ({ ws0 with reconnectAttempts := k + 1 },
         [WSEvent.reconnecting (k + 1) (min (ws0.reconnectDelay * 2 ^ k) 30000)],
         some (min (ws0.reconnectDelay * 2 ^ k) 30000))) ∧
    scheduleReconnect { ws0 with reconnectAttempts := ws0.maxReconnectAttempts } =
      ({ ws0 with reconnectAttempts := ws0.maxReconnectAttempts },
       [WSEvent.maxReconnectReached], none) ∧
    (reconnectLoop 30 ws0).2 =
      (List.range ws0.maxReconnectAttempts).map
        (fun k => WSEvent.reconnecting (k + 1)
          (min (ws0.reconnectDelay * 2 ^ k) 30000)) ++
      [WSEvent.maxReconnectReached] ∧
    countExhausted (reconnectLoop 30 ws0).2 = 1 :=
  C5_reconnect_backoff_and_exhaustion ws0 30 rfl rfl (by norm_num [ws0])

/-! Classification lemmas for spread-check outcomes and pause preservation. -/

theorem spreadCheck_inr_eq (cfg : TradingConfig) (env : Env) (bot : MakerPointsBot)
    (r2 : MakerPointsBot × List Action) (hs : spreadCheck cfg env bot = Sum.inr r2) :
    r2 = (bot, []) := by
  revert hs
  unfold spreadCheck spreadCheckSell
  cases bot.spreadBid <;> cases bot.spreadAsk <;>
    (try cases bot.state.buyOrder) <;> (try cases bot.state.sellOrder) <;>
    dsimp only <;> (repeat' split) <;> intro hs <;>
    first | (cases hs; rfl) | cases hs

theorem spreadCheck_inl_eq (cfg : TradingConfig) (env : Env) (bot : MakerPointsBot)
    (r2 : MakerPointsBot × List Action) (hs : spreadCheck cfg env bot = Sum.inl r2) :
    r2 = replaceOrder cfg env bot .buy false ∨
    r2 = replaceOrder cfg env bot .sell false := by
  revert hs
  unfold spreadCheck spreadCheckSell
  cases bot.spreadBid <;> cases bot.spreadAsk <;>
    (try cases bot.state.buyOrder) <;> (try cases bot.state.sellOrder) <;>
    dsimp only <;> (repeat' split) <;> intro hs <;>
    first
      | (cases hs; exact Or.inl rfl)
      | (cases hs; exact Or.inr rfl)
      | cases hs

theorem distanceCheckSide_pause (cfg : TradingConfig) (env : Env)
    (bot : MakerPointsBot) (side : Side) :
    (distanceCheckSide cfg env bot side).1.isPausedDueToVolatility =
      bot.isPausedDueToVolatility := by
  unfold distanceCheckSide
  cases h : bot.slot side with
  | none => rfl
  | some o =>
    by_cases hst : o.status = "OPEN"
    · by_cases hd : distanceBpOf bot.markPrice o < cfg.minDistanceBp ∨
          cfg.maxDistanceBp < distanceBpOf bot.markPrice o
      · simp only [hst, hd]
        simp [(replaceOrder_ctrl cfg env bot side false).2.2.2.1]
      · simp [hst, hd]
    · simp [hst]

theorem distanceCheck_pause (cfg : TradingConfig) (env : Env) (bot : MakerPointsBot) :
    (distanceCheck cfg env bot).1.isPausedDueToVolatility =
      bot.isPausedDueToVolatility := by
  unfold distanceCheck
  simp [distanceCheckSide_pause]

theorem quotingChecks_inr_pause_and_prefix (cfg : TradingConfig) (env : Env)
    (bot : MakerPointsBot) (r : MakerPointsBot × List Action)
    (hg : volatilityGate cfg env bot = Sum.inr r) :
    (quotingChecks cfg env bot).1.isPausedDueToVolatility =
      r.1.isPausedDueToVolatility ∧
    ∃ tail, (quotingChecks cfg env bot).2 = r.2 ++ tail := by
  unfold quotingChecks
  rw [hg]
  dsimp only
  cases hs : spreadCheck cfg env r.1 with
  | inl r2 =>
    constructor
    · rcases spreadCheck_inl_eq cfg env r.1 r2 hs with h | h <;> rw [h] <;>
        exact (replaceOrder_ctrl cfg env r.1 _ false).2.2.2.1
    · exact ⟨r2.2, rfl⟩
  | inr r2 =>
    have he := spreadCheck_inr_eq cfg env r.1 r2 hs
    subst he
    constructor
    · exact distanceCheck_pause cfg env r.1
    · exact ⟨(distanceCheck cfg env r.1).2, by simp⟩

/-- C7: in QUOTING (running, unpaused, gap within target, flat authoritative
position) when best bid and best ask are known: if the open buy order's
price is at or above the best bid, exactly that side is canceled and
replaced and the evaluation returns immediately — the trace is exactly the
one cancel and one placement for the buy side, and the sell slot is
untouched; and when the buy side does not cross, an open sell order priced
at or below the best ask gets the same single-side treatment, with the buy
slot untouched. No distance-band check runs in the same evaluation. -/
theorem C7_spread_crossing_guard (cfg : TradingConfig) (env : Env)
    (bot : MakerPointsBot) (bid ask : ℚ)
    (hrun : bot.state.isRunning = true) (hstop : bot.stopRequested = false)
    (hmark : bot.markPrice ≠ 0) (hfill : bot.isProcessingFill = false)
    (hpos : |env.currentPosition| < positionEps)
    (hpause : bot.isPausedDueToVolatility = false)
    (hgap : ∀ lp, bot.lastPrice = some lp →
      lastMarkGapBp lp bot.markPrice ≤ cfg.orderDistanceBp)
    (hb : bot.spreadBid = some bid) (ha : bot.spreadAsk = some ask) :
    (∀ bo, bot.state.buyOrder = some bo → bo.status = "OPEN" → bid ≤ bo.price →
      (checkAndReplaceOrders cfg env bot).2 =
        [Action.cancelOrder bo.orderId,
         Action.placeOrder .buy cfg.orderSizeBtc
           (calculateOrderPrice .buy bot.markPrice cfg.orderDistanceBp)] ∧
      (checkAndReplaceOrders cfg env bot).1.state.sellOrder = bot.state.sellOrder) ∧
    (∀ so, (∀ bo, bot.state.buyOrder = some bo → bo.status = "OPEN" → bo.price < bid) →
      bot.state.sellOrder = some so → so.status = "OPEN" → so.price ≤ ask →
      (checkAndReplaceOrders cfg env bot).2 =
        [Action.cancelOrder so.orderId,
         Action.placeOrder .sell cfg.orderSizeBtc
           (calculateOrderPrice .sell bot.markPrice cfg.orderDistanceBp)] ∧
      (checkAndReplaceOrders cfg env bot).1.state.buyOrder = bot.state.buyOrder) := by
  have hquiet := checkAndReplaceOrders_quiet cfg env bot hrun hstop hmark hfill hpos
  have hgate := volatilityGate_inr_of_quiet cfg env bot hpause hgap
  constructor
  · intro bo hbo hopen hcross
    have hsc := spreadCheck_buyCross cfg env bot bid ask bo hb ha hbo hopen hcross
    have hq := quotingChecks_spreadHit cfg env bot _ hgate hsc
    rw [hquiet, hq]
    exact ⟨replaceOrder_acts_of_slot cfg env bot .buy bo hbo,
           replaceOrder_buy_sellOrder ..⟩
  · intro so hbno hso hopen hcross
    have hsc := spreadCheck_sellCross cfg env bot bid ask so hb ha hbno hso hopen hcross
    have hq := quotingChecks_spreadHit cfg env bot _ hgate hsc
    rw [hquiet, hq]
    exact ⟨replaceOrder_acts_of_slot cfg env bot .sell so hso,
           replaceOrder_sell_buyOrder ..⟩

/-- C7 witness: with a 99.7 best bid under a resting 99.8 buy, the
evaluation cancels and replaces exactly the buy side. -/
theorem C7_spread_crossing_guard_witness :
    (∀ bo, botCrossed.state.buyOrder = some bo → bo.status = "OPEN" →
      (997 / 10 : ℚ) ≤ bo.price →
      (checkAndReplaceOrders cfg0 env0 botCrossed).2 =
        [Action.cancelOrder bo.orderId,
         Action.placeOrder .buy cfg0.orderSizeBtc
           (calculateOrderPrice .buy botCrossed.markPrice cfg0.orderDistanceBp)] ∧
      (checkAndReplaceOrders cfg0 env0 botCrossed).1.state.sellOrder =
        botCrossed.state.sellOrder) ∧
    (∀ so, (∀ bo, botCrossed.state.buyOrder = some bo → bo.status = "OPEN" →
        bo.price < (997 / 10 : ℚ)) →
      botCrossed.state.sellOrder = some so → so.status = "OPEN" →
      so.price ≤ (1001 / 10 : ℚ) →
      (checkAndReplaceOrders cfg0 env0 botCrossed).2 =
        [Action.cancelOrder so.orderId,
         Action.placeOrder .sell cfg0.orderSizeBtc
           (calculateOrderPrice .sell botCrossed.markPrice cfg0.orderDistanceBp)] ∧
      (checkAndReplaceOrders cfg0 env0 botCrossed).1.state.buyOrder =
        botCrossed.state.buyOrder) :=
  C7_spread_crossing_guard cfg0 env0 botCrossed (997 / 10) (1001 / 10)
    rfl rfl (by norm_num [botCrossed, bot0]) rfl
    (by norm_num [env0, positionEps]) rfl
    (by
      intro lp hlp
      simp only [botCrossed, bot0] at hlp
      cases hlp
      norm_num [lastMarkGapBp, botCrossed, bot0, cfg0])
    rfl rfl

/-! Snapshot application and the paused-sequence helper. -/

@[simp]
theorem applySnapshot_isRunning (bot : MakerPointsBot) (snap : Snapshot) :
    (applySnapshot bot snap).state.isRunning = bot.state.isRunning := by
  unfold applySnapshot
  dsimp only
  rcases snap.lastPrice with _ | lp <;> rcases snap.spread with _ | ⟨b, a⟩ <;> rfl

@[simp]
theorem applySnapshot_stopRequested (bot : MakerPointsBot) (snap : Snapshot) :
    (applySnapshot bot snap).stopRequested = bot.stopRequested := by
  unfold applySnapshot
  dsimp only
  rcases snap.lastPrice with _ | lp <;> rcases snap.spread with _ | ⟨b, a⟩ <;> rfl

@[simp]
theorem applySnapshot_isProcessingFill (bot : MakerPointsBot) (snap : Snapshot) :
    (applySnapshot bot snap).isProcessingFill = bot.isProcessingFill := by
  unfold applySnapshot
  dsimp only
  rcases snap.lastPrice with _ | lp <;> rcases snap.spread with _ | ⟨b, a⟩ <;> rfl

@[simp]
theorem applySnapshot_paused (bot : MakerPointsBot) (snap : Snapshot) :
    (applySnapshot bot snap).isPausedDueToVolatility =
      bot.isPausedDueToVolatility := by
  unfold applySnapshot
  dsimp only
  rcases snap.lastPrice with _ | lp <;> rcases snap.spread with _ | ⟨b, a⟩ <;> rfl

@[simp]
theorem applySnapshot_markPrice (bot : MakerPointsBot) (snap : Snapshot) :
    (applySnapshot bot snap).markPrice = snap.markPrice := by
  unfold applySnapshot
  dsimp only
  rcases snap.lastPrice with _ | lp <;> rcases snap.spread with _ | ⟨b, a⟩ <;> rfl

theorem applySnapshot_lastPrice (bot : MakerPointsBot) (snap : Snapshot) (lp : ℚ)
    (h : snap.lastPrice = some lp) :
    (applySnapshot bot snap).lastPrice = some lp := by
  unfold applySnapshot
  dsimp only
  rw [h]
  rcases snap.spread with _ | ⟨b, a⟩ <;> rfl

theorem checkAndReplaceOrders_stayPaused (cfg : TradingConfig) (env : Env)
    (bot : MakerPointsBot) (lp : ℚ)
    (hrun : bot.state.isRunning = true) (hstop : bot.stopRequested = false)
    (hmark : bot.markPrice ≠ 0) (hfill : bot.isProcessingFill = false)
    (hpos : |env.currentPosition| < positionEps)
    (hp : bot.isPausedDueToVolatility = true) (hl : bot.lastPrice = some lp)
    (hg : cfg.orderDistanceBp * (8 / 10) ≤ lastMarkGapBp lp bot.markPrice) :
    checkAndReplaceOrders cfg env bot = (bot, []) := by
  rw [checkAndReplaceOrders_quiet cfg env bot hrun hstop hmark hfill hpos,
    quotingChecks_gateEarly cfg env bot _
      (volatilityGate_stayPaused cfg env bot lp hl hp hg)]

theorem processSnapshots_stayPaused (cfg : TradingConfig) (env : Env)
    (hpos : |env.currentPosition| < positionEps) (snaps : List Snapshot) :
    ∀ bot : MakerPointsBot, bot.state.isRunning = true → bot.stopRequested = false →
      bot.isProcessingFill = false → bot.isPausedDueToVolatility = true →
      (∀ snap ∈ snaps, snap.markPrice ≠ 0 ∧ ∃ lp, snap.lastPrice = some lp ∧
        cfg.orderDistanceBp * (8 / 10) ≤ lastMarkGapBp lp snap.markPrice) →
      (processSnapshots cfg env snaps bot).1.isPausedDueToVolatility = true ∧
      (processSnapshots cfg env snaps bot).2 = [] := by
  induction snaps with
  | nil => exact fun bot _ _ _ h4 _ => ⟨h4, rfl⟩
  | cons snap rest ih =>
    intro bot h1 h2 h3 h4 h5
    obtain ⟨hm, lp, hlp, hg⟩ := h5 snap (List.mem_cons_self ..)
    have hstep : handleMarkPriceUpdate cfg env bot snap = (applySnapshot bot snap, []) := by
      unfold handleMarkPriceUpdate
      exact checkAndReplaceOrders_stayPaused cfg env (applySnapshot bot snap) lp
        (by simp [h1]) (by simp [h2]) (by simp; exact hm) (by simp [h3]) hpos
        (by simp [h4]) (applySnapshot_lastPrice bot snap lp hlp)
        (by rw [applySnapshot_markPrice]; exact hg)
    have hrest := ih (applySnapshot bot snap) (by simp [h1]) (by simp [h2])
      (by simp [h3]) (by simp [h4]) (fun s hs => h5 s (List.mem_cons_of_mem _ hs))
    unfold processSnapshots
    rw [hstep]
    exact ⟨hrest.1, by simp [hrest.2]⟩

/-- C3: once the controller is paused for volatility — the pause is entered
when the gap |lastTradePrice − markPrice|/markPrice in basis points exceeds
the target distance, cancelling both resting orders and clearing both order
slots — every subsequent evaluation whose gap is at least 0.8 × target
leaves it paused with no venue calls, even when the gap has dipped below
the target itself; and it resumes and re-places the configured sides
exactly when a snapshot with gap < 0.8 × target is observed. The sequence
form: a paused controller fed any list of snapshots whose gaps all stay at
or above 0.8 × target stays paused and issues no calls at all. -/
theorem C3_volatility_pause_hysteresis (cfg : TradingConfig) (env : Env)
    (botE botP botR botT : MakerPointsBot) (lpE lpP lpR : ℚ) (snaps : List Snapshot)
    (hT : 0 ≤ cfg.orderDistanceBp)
    (hpos : |env.currentPosition| < positionEps)
    (hE1 : botE.state.isRunning = true) (hE2 : botE.stopRequested = false)
    (hE3 : botE.markPrice ≠ 0) (hE4 : botE.isProcessingFill = false)
    (hE5 : botE.isPausedDueToVolatility = false) (hE6 : botE.lastPrice = some lpE)
    (hE7 : cfg.orderDistanceBp < lastMarkGapBp lpE botE.markPrice)
    (hP1 : botP.state.isRunning = true) (hP2 : botP.stopRequested = false)
    (hP3 : botP.markPrice ≠ 0) (hP4 : botP.isProcessingFill = false)
    (hP5 : botP.isPausedDueToVolatility = true) (hP6 : botP.lastPrice = some lpP)
    (hP7 : cfg.orderDistanceBp * (8 / 10) ≤ lastMarkGapBp lpP botP.markPrice)
    (hR1 : botR.state.isRunning = true) (hR2 : botR.stopRequested = false)
    (hR3 : botR.markPrice ≠ 0) (hR4 : botR.isProcessingFill = false)
    (hR5 : botR.isPausedDueToVolatility = true) (hR6 : botR.lastPrice = some lpR)
    (hR7 : lastMarkGapBp lpR botR.markPrice < cfg.orderDistanceBp * (8 / 10))
    (hT1 : botT.state.isRunning = true) (hT2 : botT.stopRequested = false)
    (hT3 : botT.isProcessingFill = false) (hT4 : botT.isPausedDueToVolatility = true)
    (hsnaps : ∀ snap ∈ snaps, snap.markPrice ≠ 0 ∧ ∃ lp, snap.lastPrice = some lp ∧
      cfg.orderDistanceBp * (8 / 10) ≤ lastMarkGapBp lp snap.markPrice) :
    checkAndReplaceOrders cfg env botE =
      ({ botE with
          isPausedDueToVolatility := true
          state := { botE.state with buyOrder := none, sellOrder := none } },
       [Action.cancelAll]) ∧
    checkAndReplaceOrders cfg env botP = (botP, []) ∧
    ((checkAndReplaceOrders cfg env botR).1.isPausedDueToVolatility = false ∧
     (cfg.mode.includesBuy = true →
       Action.placeOrder .buy cfg.orderSizeBtc
           (calculateOrderPrice .buy botR.markPrice cfg.orderDistanceBp) ∈
         (checkAndReplaceOrders cfg env botR).2) ∧
     (cfg.mode.includesSell = true →
       Action.placeOrder .sell cfg.orderSizeBtc
           (calculateOrderPrice .sell botR.markPrice cfg.orderDistanceBp) ∈
         (checkAndReplaceOrders cfg env botR).2)) ∧
    ((processSnapshots cfg env snaps botT).1.isPausedDueToVolatility = true ∧
     (processSnapshots cfg env snaps botT).2 = []) := by
  refine ⟨?_, ?_, ?_,
    processSnapshots_stayPaused cfg env hpos snaps botT hT1 hT2 hT3 hT4 hsnaps⟩
  · rw [checkAndReplaceOrders_quiet cfg env botE hE1 hE2 hE3 hE4 hpos,
      quotingChecks_gateEarly cfg env botE _
        (volatilityGate_entry cfg env botE lpE hE6 hE5 hE7)]
  · exact checkAndReplaceOrders_stayPaused cfg env botP lpP hP1 hP2 hP3 hP4 hpos hP5 hP6 hP7
  · have hg := volatilityGate_resume cfg env botR lpR hR6 hR5 hR7 hT
    have hmain := quotingChecks_inr_pause_and_prefix cfg env botR _ hg
    rw [checkAndReplaceOrders_quiet cfg env botR hR1 hR2 hR3 hR4 hpos]
    obtain ⟨tail, htail⟩ := hmain.2
    refine ⟨?_, ?_, ?_⟩
    · rw [hmain.1, (placeConfigured_ctrl cfg env _).2.2.2.1]
    · intro hmode
      rw [htail]
      exact List.mem_append_left _ (placeConfigured_buyMem cfg env _ hmode)
    · intro hmode
      rw [htail]
      exact List.mem_append_left _ (placeConfigured_sellMem cfg env _ hmode)

/-- C3 witness: a quiet controller seeing a 30 bp gap pauses and cancels
both orders; a paused controller at a 17 bp gap (below the 20 bp target but
above the 16 bp re-entry) stays paused with no calls — also over a sequence
of two such snapshots — and a paused controller at a 10 bp gap resumes both
sides. -/
theorem C3_volatility_pause_hysteresis_witness :
    checkAndReplaceOrders cfg0 env0 botVol =
      ({ botVol with
          isPausedDueToVolatility := true
          state := { botVol.state with buyOrder := none, sellOrder := none } },
       [Action.cancelAll]) ∧
    checkAndReplaceOrders cfg0 env0 botPausedWarm = (botPausedWarm, []) ∧
    ((checkAndReplaceOrders cfg0 env0 botPausedCalm).1.isPausedDueToVolatility = false ∧
     (cfg0.mode.includesBuy = true →
       Action.placeOrder .buy cfg0.orderSizeBtc
           (calculateOrderPrice .buy botPausedCalm.markPrice cfg0.orderDistanceBp) ∈
         (checkAndReplaceOrders cfg0 env0 botPausedCalm).2) ∧
     (cfg0.mode.includesSell = true →
       Action.placeOrder .sell cfg0.orderSizeBtc
           (calculateOrderPrice .sell botPausedCalm.markPrice cfg0.orderDistanceBp) ∈
         (checkAndReplaceOrders cfg0 env0 botPausedCalm).2)) ∧
    ((processSnapshots cfg0 env0 [snapWarm, snapWarm] botPaused).1.isPausedDueToVolatility =
       true ∧
     (processSnapshots cfg0 env0 [snapWarm, snapWarm] botPaused).2 = []) :=
  C3_volatility_pause_hysteresis cfg0 env0 botVol botPausedWarm botPausedCalm botPaused
    (1003 / 10) (10017 / 100) (1001 / 10) [snapWarm, snapWarm]
    (by norm_num [cfg0]) (by norm_num [env0, positionEps])
    rfl rfl (by norm_num [botVol, bot0]) rfl rfl rfl
    (by norm_num [lastMarkGapBp, botVol, bot0, cfg0, abs_of_nonneg])
    rfl rfl (by norm_num [botPausedWarm, botPaused, bot0]) rfl rfl rfl
    (by norm_num [lastMarkGapBp, botPausedWarm, botPaused, bot0, cfg0, abs_of_nonneg])
    rfl rfl (by norm_num [botPausedCalm, botPaused, bot0]) rfl rfl rfl
    (by norm_num [lastMarkGapBp, botPausedCalm, botPaused, bot0, cfg0, abs_of_nonneg])
    rfl rfl rfl rfl
    (by
      intro snap hs
      have hsnap : snap = snapWarm := by simpa using hs
      subst hsnap
      refine ⟨by norm_num [snapWarm], ⟨10017 / 100, rfl, ?_⟩⟩
      norm_num [lastMarkGapBp, snapWarm, cfg0, abs_of_nonneg])

/-! Lemmas for the distance-check idempotence analysis. -/

theorem spreadCheckSell_cases (cfg : TradingConfig) (env : Env)
    (bot : MakerPointsBot) (ask : ℚ) :
    spreadCheckSell cfg env bot ask = Sum.inr (bot, []) ∨
    spreadCheckSell cfg env bot ask = Sum.inl (replaceOrder cfg env bot .sell false) := by
  unfold spreadCheckSell
  cases bot.state.sellOrder
  · exact Or.inl rfl
  · dsimp only
    split
    · exact Or.inr rfl
    · exact Or.inl rfl

theorem spreadCheck_buyClean (cfg : TradingConfig) (env : Env) (bot : MakerPointsBot)
    (hnocross : ∀ bid bo, bot.spreadBid = some bid → bot.state.buyOrder = some bo →
      bo.status = "OPEN" → bo.price < bid) :
    spreadCheck cfg env bot = Sum.inr (bot, []) ∨
    spreadCheck cfg env bot = Sum.inl (replaceOrder cfg env bot .sell false) := by
  unfold spreadCheck
  cases hb : bot.spreadBid with
  | none => exact Or.inl rfl
  | some bid =>
    cases ha : bot.spreadAsk with
    | none => exact Or.inl rfl
    | some ask =>
      dsimp only
      cases hbo : bot.state.buyOrder with
      | none => exact spreadCheckSell_cases cfg env bot ask
      | some bo =>
        dsimp only
        by_cases hst : bo.status = "OPEN"
        · rw [if_neg (by simp [hst, not_le.mpr (hnocross bid bo hb hbo hst)])]
          exact spreadCheckSell_cases cfg env bot ask
        · rw [if_neg (by simp [hst])]
          exact spreadCheckSell_cases cfg env bot ask

theorem spreadCheck_sellClean (cfg : TradingConfig) (env : Env) (bot : MakerPointsBot)
    (hnocross : ∀ ask so, bot.spreadAsk = some ask → bot.state.sellOrder = some so →
      so.status = "OPEN" → ask < so.price) :
    spreadCheck cfg env bot = Sum.inr (bot, []) ∨
    spreadCheck cfg env bot = Sum.inl (replaceOrder cfg env bot .buy false) := by
  unfold spreadCheck
  cases hb : bot.spreadBid with
  | none => exact Or.inl rfl
  | some bid =>
    cases ha : bot.spreadAsk with
    | none => exact Or.inl rfl
    | some ask =>
      dsimp only
      have hsell := spreadCheckSell_clean cfg env bot ask
        (fun so hso hst => hnocross ask so ha hso hst)
      cases hbo : bot.state.buyOrder with
      | none => exact Or.inl hsell
      | some bo =>
        dsimp only
        split
        · exact Or.inr rfl
        · exact Or.inl hsell

theorem replaceOrder_leavesOther (cfg : TradingConfig) (env : Env)
    (bot : MakerPointsBot) (side : Side) (fresh : Bool) (oid : String) (other : Side)
    (hside : side ≠ other)
    (hid : ∀ oo, bot.slot side = some oo → oo.orderId ≠ oid) :
    actsLeaveSideAlone (replaceOrder cfg env bot side fresh).2 oid other = true := by
  unfold replaceOrder
  cases fresh <;> cases h1 : bot.slot side <;> cases h2 : env.freshMark <;>
    cases h3 : env.place side <;> cases h4 : env.cancelOk <;>
    simp_all [actsLeaveSideAlone, Action.leavesSideAlone, hside]

theorem replaceOrder_sell_slot (cfg : TradingConfig) (env : Env)
    (bot : MakerPointsBot) (fresh : Bool) :
    (replaceOrder cfg env bot .sell fresh).1.state.sellOrder = bot.state.sellOrder ∨
    (replaceOrder cfg env bot .sell fresh).1.state.sellOrder = env.placeSell := by
  unfold replaceOrder
  cases fresh <;> cases h1 : bot.state.sellOrder <;> cases h2 : env.freshMark <;>
    cases h3 : env.placeSell <;> cases h4 : env.cancelOk <;>
    simp_all [MakerPointsBot.slot, Env.place]

theorem replaceOrder_buy_slot (cfg : TradingConfig) (env : Env)
    (bot : MakerPointsBot) (fresh : Bool) :
    (replaceOrder cfg env bot .buy fresh).1.state.buyOrder = bot.state.buyOrder ∨
    (replaceOrder cfg env bot .buy fresh).1.state.buyOrder = env.placeBuy := by
  unfold replaceOrder
  cases fresh <;> cases h1 : bot.state.buyOrder <;> cases h2 : env.freshMark <;>
    cases h3 : env.placeBuy <;> cases h4 : env.cancelOk <;>
    simp_all [MakerPointsBot.slot, Env.place]

theorem distanceCheckSide_ctrl (cfg : TradingConfig) (env : Env)
    (bot : MakerPointsBot) (side : Side) :
    (distanceCheckSide cfg env bot side).1.state.isRunning = bot.state.isRunning ∧
    (distanceCheckSide cfg env bot side).1.stopRequested = bot.stopRequested ∧
    (distanceCheckSide cfg env bot side).1.isProcessingFill = bot.isProcessingFill ∧
    (distanceCheckSide cfg env bot side).1.isPausedDueToVolatility =
      bot.isPausedDueToVolatility ∧
    (distanceCheckSide cfg env bot side).1.lastPrice = bot.lastPrice ∧
    (distanceCheckSide cfg env bot side).1.spreadBid = bot.spreadBid ∧
    (distanceCheckSide cfg env bot side).1.spreadAsk = bot.spreadAsk ∧
    (distanceCheckSide cfg env bot side).1.markPrice = bot.markPrice := by
  unfold distanceCheckSide
  cases h : bot.slot side with
  | none => exact ⟨rfl, rfl, rfl, rfl, rfl, rfl, rfl, rfl⟩
  | some o =>
    dsimp only
    by_cases hst : o.status = "OPEN"
    · rw [if_pos (by simp [hst])]
      by_cases hd : distanceBpOf bot.markPrice o < cfg.minDistanceBp ∨
          cfg.maxDistanceBp < distanceBpOf bot.markPrice o
      · rw [if_pos hd]
        have hc := replaceOrder_ctrl cfg env bot side false
        have hm := replaceOrder_markPrice_cached cfg env bot side
        exact ⟨hc.1, hc.2.1, hc.2.2.1, hc.2.2.2.1, hc.2.2.2.2.1,
          hc.2.2.2.2.2.1, hc.2.2.2.2.2.2, hm⟩
      · rw [if_neg hd]
        exact ⟨rfl, rfl, rfl, rfl, rfl, rfl, rfl, rfl⟩
    · rw [if_neg (by simp [hst])]
      exact ⟨rfl, rfl, rfl, rfl, rfl, rfl, rfl, rfl⟩

theorem distanceCheckSide_sell_buyOrder (cfg : TradingConfig) (env : Env)
    (bot : MakerPointsBot) :
    (distanceCheckSide cfg env bot .sell).1.state.buyOrder = bot.state.buyOrder := by
  unfold distanceCheckSide
  cases h : bot.slot .sell with
  | none => rfl
  | some o =>
    dsimp only
    by_cases hst : o.status = "OPEN"
    · rw [if_pos (by simp [hst])]
      by_cases hd : distanceBpOf bot.markPrice o < cfg.minDistanceBp ∨
          cfg.maxDistanceBp < distanceBpOf bot.markPrice o
      · rw [if_pos hd]
        exact replaceOrder_sell_buyOrder cfg env bot false
      · rw [if_neg hd]
    · rw [if_neg (by simp [hst])]

theorem distanceCheckSide_buy_sellOrder (cfg : TradingConfig) (env : Env)
    (bot : MakerPointsBot) :
    (distanceCheckSide cfg env bot .buy).1.state.sellOrder = bot.state.sellOrder := by
  unfold distanceCheckSide
  cases h : bot.slot .buy with
  | none => rfl
  | some o =>
    dsimp only
    by_cases hst : o.status = "OPEN"
    · rw [if_pos (by simp [hst])]
      by_cases hd : distanceBpOf bot.markPrice o < cfg.minDistanceBp ∨
          cfg.maxDistanceBp < distanceBpOf bot.markPrice o
      · rw [if_pos hd]
        exact replaceOrder_buy_sellOrder cfg env bot false
      · rw [if_neg hd]
    · rw [if_neg (by simp [hst])]

theorem distanceCheckSide_leavesOther (cfg : TradingConfig) (env : Env)
    (bot : MakerPointsBot) (side other : Side) (oid : String)
    (hside : side ≠ other)
    (hid : ∀ oo, bot.slot side = some oo → oo.orderId ≠ oid) :
    actsLeaveSideAlone (distanceCheckSide cfg env bot side).2 oid other = true := by
  unfold distanceCheckSide
  cases h : bot.slot side with
  | none => rfl
  | some o =>
    dsimp only
    by_cases hst : o.status = "OPEN"
    · rw [if_pos (by simp [hst])]
      by_cases hd : distanceBpOf bot.markPrice o < cfg.minDistanceBp ∨
          cfg.maxDistanceBp < distanceBpOf bot.markPrice o
      · rw [if_pos hd]
        exact replaceOrder_leavesOther cfg env bot side false oid other hside hid
      · rw [if_neg hd]
        rfl
    · rw [if_neg (by simp [hst])]
      rfl

theorem distanceCheckSide_sell_slot (cfg : TradingConfig) (env : Env)
    (bot : MakerPointsBot) :
    (distanceCheckSide cfg env bot .sell).1.state.sellOrder = bot.state.sellOrder ∨
    (distanceCheckSide cfg env bot .sell).1.state.sellOrder = env.placeSell := by
  unfold distanceCheckSide
  cases h : bot.slot .sell with
  | none => exact Or.inl rfl
  | some o =>
    dsimp only
    by_cases hst : o.status = "OPEN"
    · rw [if_pos (by simp [hst])]
      by_cases hd : distanceBpOf bot.markPrice o < cfg.minDistanceBp ∨
          cfg.maxDistanceBp < distanceBpOf bot.markPrice o
      · rw [if_pos hd]
        exact replaceOrder_sell_slot cfg env bot false
      · rw [if_neg hd]
        exact Or.inl rfl
    · rw [if_neg (by simp [hst])]
      exact Or.inl rfl

theorem distanceCheckSide_buy_slot (cfg : TradingConfig) (env : Env)
    (bot : MakerPointsBot) :
    (distanceCheckSide cfg env bot .buy).1.state.buyOrder = bot.state.buyOrder ∨
    (distanceCheckSide cfg env bot .buy).1.state.buyOrder = env.placeBuy := by
  unfold distanceCheckSide
  cases h : bot.slot .buy with
  | none => exact Or.inl rfl
  | some o =>
    dsimp only
    by_cases hst : o.status = "OPEN"
    · rw [if_pos (by simp [hst])]
      by_cases hd : distanceBpOf bot.markPrice o < cfg.minDistanceBp ∨
          cfg.maxDistanceBp < distanceBpOf bot.markPrice o
      · rw [if_pos hd]
        exact replaceOrder_buy_slot cfg env bot false
      · rw [if_neg hd]
        exact Or.inl rfl
    · rw [if_neg (by simp [hst])]
      exact Or.inl rfl

theorem distanceCheck_buyInBand (cfg : TradingConfig) (env : Env)
    (bot : MakerPointsBot) (o : Order)
    (hbo : bot.slot .buy = some o) (hopen : o.status = "OPEN")
    (hlo : cfg.minDistanceBp ≤ distanceBpOf bot.markPrice o)
    (hhi : distanceBpOf bot.markPrice o ≤ cfg.maxDistanceBp) :
    distanceCheck cfg env bot = distanceCheckSide cfg env bot .sell := by
  unfold distanceCheck
  rw [distanceCheckSide_inBand cfg env bot .buy o hbo hopen hlo hhi]
  simp

theorem distanceCheck_sellInBand (cfg : TradingConfig) (env : Env)
    (bot : MakerPointsBot) (o : Order)
    (hso : bot.slot .sell = some o) (hopen : o.status = "OPEN")
    (hlo : cfg.minDistanceBp ≤ distanceBpOf bot.markPrice o)
    (hhi : distanceBpOf bot.markPrice o ≤ cfg.maxDistanceBp) :
    distanceCheck cfg env bot =
      ((distanceCheckSide cfg env bot .buy).1,
       (distanceCheckSide cfg env bot .buy).2) := by
  unfold distanceCheck
  have h1 := distanceCheckSide_buy_sellOrder cfg env bot
  have h2 := (distanceCheckSide_ctrl cfg env bot .buy).2.2.2.2.2.2.2
  have hslot : (distanceCheckSide cfg env bot .buy).1.slot .sell = some o := by
    show (distanceCheckSide cfg env bot .buy).1.state.sellOrder = some o
    rw [h1]
    exact hso
  dsimp only
  rw [distanceCheckSide_inBand cfg env _ .sell o hslot hopen
    (by rw [h2]; exact hlo) (by rw [h2]; exact hhi)]
  simp

@[simp]
theorem applySnapshot_buyOrder (bot : MakerPointsBot) (snap : Snapshot) :
    (applySnapshot bot snap).state.buyOrder = bot.state.buyOrder := by
  unfold applySnapshot
  dsimp only
  rcases snap.lastPrice with _ | lp <;> rcases snap.spread with _ | ⟨b, a⟩ <;> rfl

@[simp]
theorem applySnapshot_sellOrder (bot : MakerPointsBot) (snap : Snapshot) :
    (applySnapshot bot snap).state.sellOrder = bot.state.sellOrder := by
  unfold applySnapshot
  dsimp only
  rcases snap.lastPrice with _ | lp <;> rcases snap.spread with _ | ⟨b, a⟩ <;> rfl

theorem applySnapshot_spreadBid (bot : MakerPointsBot) (snap : Snapshot)
    (bid ask : ℚ) (h : snap.spread = some (bid, ask)) :
    (applySnapshot bot snap).spreadBid = some bid := by
  unfold applySnapshot
  dsimp only
  rw [h]

theorem applySnapshot_spreadAsk (bot : MakerPointsBot) (snap : Snapshot)
    (bid ask : ℚ) (h : snap.spread = some (bid, ask)) :
    (applySnapshot bot snap).spreadAsk = some ask := by
  unfold applySnapshot
  dsimp only
  rw [h]

theorem actsLeaveSideAlone_append (l1 l2 : List Action) (oid : String) (side : Side) :
    actsLeaveSideAlone (l1 ++ l2) oid side =
      (actsLeaveSideAlone l1 oid side && actsLeaveSideAlone l2 oid side) := by
  simp [actsLeaveSideAlone]

theorem checkAndReplace_buyProtected (cfg : TradingConfig) (env : Env)
    (bot : MakerPointsBot) (o : Order)
    (hrun : bot.state.isRunning = true)
    (hstop : bot.stopRequested = false)
    (hmark : bot.markPrice ≠ 0)
    (hfill : bot.isProcessingFill = false)
    (hpos : |env.currentPosition| < positionEps)
    (hpause : bot.isPausedDueToVolatility = false)
    (hgap : ∀ lp, bot.lastPrice = some lp →
      lastMarkGapBp lp bot.markPrice ≤ cfg.orderDistanceBp)
    (hbo : bot.state.buyOrder = some o)
    (hopen : o.status = "OPEN")
    (hlo : cfg.minDistanceBp ≤ distanceBpOf bot.markPrice o)
    (hhi : distanceBpOf bot.markPrice o ≤ cfg.maxDistanceBp)
    (hnocross : ∀ bid, bot.spreadBid = some bid → o.price < bid)
    (hid : ∀ so, bot.state.sellOrder = some so → so.orderId ≠ o.orderId) :
    (checkAndReplaceOrders cfg env bot).1.state.buyOrder = some o ∧
    actsLeaveSideAlone (checkAndReplaceOrders cfg env bot).2 o.orderId .buy = true ∧
    (checkAndReplaceOrders cfg env bot).1.state.isRunning = true ∧
    (checkAndReplaceOrders cfg env bot).1.stopRequested = false ∧
    (checkAndReplaceOrders cfg env bot).1.isProcessingFill = false ∧
    (checkAndReplaceOrders cfg env bot).1.isPausedDueToVolatility = false ∧
    ((checkAndReplaceOrders cfg env bot).1.state.sellOrder = bot.state.sellOrder ∨
     (checkAndReplaceOrders cfg env bot).1.state.sellOrder = env.placeSell) := by
  have hquiet := checkAndReplaceOrders_quiet cfg env bot hrun hstop hmark hfill hpos
  have hgate := volatilityGate_inr_of_quiet cfg env bot hpause hgap
  rw [hquiet]
  unfold quotingChecks
  rw [hgate]
  dsimp only
  have hsc := spreadCheck_buyClean cfg env bot (fun bid bo hbid hbo2 hst => by
    rw [hbo] at hbo2
    cases Option.some.inj hbo2
    exact hnocross bid hbid)
  have hslotb : bot.slot .buy = some o := hbo
  have hids : ∀ oo, bot.slot .sell = some oo → oo.orderId ≠ o.orderId := hid
  rcases hsc with hsc | hsc
  · rw [hsc]
    dsimp only
    rw [distanceCheck_buyInBand cfg env bot o hslotb hopen hlo hhi]
    have hctrl := distanceCheckSide_ctrl cfg env bot .sell
    refine ⟨?_, ?_, ?_, ?_, ?_, ?_, ?_⟩
    · rw [distanceCheckSide_sell_buyOrder cfg env bot]
      exact hbo
    · simp only [List.nil_append]
      exact distanceCheckSide_leavesOther cfg env bot .sell .buy o.orderId
        (by simp) hids
    · rw [hctrl.1]; exact hrun
    · rw [hctrl.2.1]; exact hstop
    · rw [hctrl.2.2.1]; exact hfill
    · rw [hctrl.2.2.2.1]; exact hpause
    · exact distanceCheckSide_sell_slot cfg env bot
  · rw [hsc]
    dsimp only
    have hctrl := replaceOrder_ctrl cfg env bot .sell false
    refine ⟨?_, ?_, ?_, ?_, ?_, ?_, ?_⟩
    · rw [replaceOrder_sell_buyOrder cfg env bot false]
      exact hbo
    · simp only [List.nil_append]
      exact replaceOrder_leavesOther cfg env bot .sell false o.orderId .buy
        (by simp) hids
    · rw [hctrl.1]; exact hrun
    · rw [hctrl.2.1]; exact hstop
    · rw [hctrl.2.2.1]; exact hfill
    · rw [hctrl.2.2.2.1]; exact hpause
    · exact replaceOrder_sell_slot cfg env bot false

theorem checkAndReplace_sellProtected (cfg : TradingConfig) (env : Env)
    (bot : MakerPointsBot) (o : Order)
    (hrun : bot.state.isRunning = true)
    (hstop : bot.stopRequested = false)
    (hmark : bot.markPrice ≠ 0)
    (hfill : bot.isProcessingFill = false)
    (hpos : |env.currentPosition| < positionEps)
    (hpause : bot.isPausedDueToVolatility = false)
    (hgap : ∀ lp, bot.lastPrice = some lp →
      lastMarkGapBp lp bot.markPrice ≤ cfg.orderDistanceBp)
    (hso : bot.state.sellOrder = some o)
    (hopen : o.status = "OPEN")
    (hlo : cfg.minDistanceBp ≤ distanceBpOf bot.markPrice o)
    (hhi : distanceBpOf bot.markPrice o ≤ cfg.maxDistanceBp)
    (hnocross : ∀ ask, bot.spreadAsk = some ask → ask < o.price)
    (hid : ∀ bo, bot.state.buyOrder = some bo → bo.orderId ≠ o.orderId) :
    (checkAndReplaceOrders cfg env bot).1.state.sellOrder = some o ∧
    actsLeaveSideAlone (checkAndReplaceOrders cfg env bot).2 o.orderId .sell = true ∧
    (checkAndReplaceOrders cfg env bot).1.state.isRunning = true ∧
    (checkAndReplaceOrders cfg env bot).1.stopRequested = false ∧
    (checkAndReplaceOrders cfg env bot).1.isProcessingFill = false ∧
    (checkAndReplaceOrders cfg env bot).1.isPausedDueToVolatility = false ∧
    ((checkAndReplaceOrders cfg env bot).1.state.buyOrder = bot.state.buyOrder ∨
     (checkAndReplaceOrders cfg env bot).1.state.buyOrder = env.placeBuy) := by
  have hquiet := checkAndReplaceOrders_quiet cfg env bot hrun hstop hmark hfill hpos
  have hgate := volatilityGate_inr_of_quiet cfg env bot hpause hgap
  rw [hquiet]
  unfold quotingChecks
  rw [hgate]
  dsimp only
  have hsc := spreadCheck_sellClean cfg env bot (fun ask so hask hso2 hst => by
    rw [hso] at hso2
    cases Option.some.inj hso2
    exact hnocross ask hask)
  have hslots : bot.slot .sell = some o := hso
  have hidb : ∀ oo, bot.slot .buy = some oo → oo.orderId ≠ o.orderId := hid
  rcases hsc with hsc | hsc
  · rw [hsc]
    dsimp only
    rw [distanceCheck_sellInBand cfg env bot o hslots hopen hlo hhi]
    have hctrl := distanceCheckSide_ctrl cfg env bot .buy
    refine ⟨?_, ?_, ?_, ?_, ?_, ?_, ?_⟩
    · rw [distanceCheckSide_buy_sellOrder cfg env bot]
      exact hso
    · simp only [List.nil_append]
      exact distanceCheckSide_leavesOther cfg env bot .buy .sell o.orderId
        (by simp) hidb
    · rw [hctrl.1]; exact hrun
    · rw [hctrl.2.1]; exact hstop
    · rw [hctrl.2.2.1]; exact hfill
    · rw [hctrl.2.2.2.1]; exact hpause
    · exact distanceCheckSide_buy_slot cfg env bot
  · rw [hsc]
    dsimp only
    have hctrl := replaceOrder_ctrl cfg env bot .buy false
    refine ⟨?_, ?_, ?_, ?_, ?_, ?_, ?_⟩
    · rw [replaceOrder_buy_sellOrder cfg env bot false]
      exact hso
    · simp only [List.nil_append]
      exact replaceOrder_leavesOther cfg env bot .buy false o.orderId .sell
        (by simp) hidb
    · rw [hctrl.1]; exact hrun
    · rw [hctrl.2.1]; exact hstop
    · rw [hctrl.2.2.1]; exact hfill
    · rw [hctrl.2.2.2.1]; exact hpause
    · exact replaceOrder_buy_slot cfg env bot false

/-- C6 counterexample: with a 99.7 best bid under the resting 99.8 buy order
of `bot0`, the buy order's distance (about 20 bp) is inside the [10, 30] bp
band at the snapshot, and so is the distance of the freshly placed
replacement — yet processing the identical snapshot a second time again
cancels and re-places the buy side: the spread-crossing guard fires on every
evaluation, so an in-band order is not left alone by an identical snapshot. -/
theorem C6_counterexample :
    (applySnapshot bot0 snapCrossed).state.buyOrder = some orderB1 ∧
    orderB1.status = "OPEN" ∧
    cfg0.minDistanceBp ≤ distanceBpOf (applySnapshot bot0 snapCrossed).markPrice orderB1 ∧
    distanceBpOf (applySnapshot bot0 snapCrossed).markPrice orderB1 ≤ cfg0.maxDistanceBp ∧
    (handleMarkPriceUpdate cfg0 env0 bot0 snapCrossed).1.state.buyOrder = some orderB2 ∧
    cfg0.minDistanceBp ≤ distanceBpOf snapCrossed.markPrice orderB2 ∧
    distanceBpOf snapCrossed.markPrice orderB2 ≤ cfg0.maxDistanceBp ∧
    (handleMarkPriceUpdate cfg0 env0
        (handleMarkPriceUpdate cfg0 env0 bot0 snapCrossed).1 snapCrossed).2 =
      [Action.cancelOrder "b2", Action.placeOrder .buy (1 / 10) (499 / 5)] ∧
    actsLeaveSideAlone
      (handleMarkPriceUpdate cfg0 env0
        (handleMarkPriceUpdate cfg0 env0 bot0 snapCrossed).1 snapCrossed).2
      "b2" .buy = false := by
  norm_num [handleMarkPriceUpdate, checkAndReplaceOrders, applySnapshot, quotingChecks,
    volatilityGate, lastMarkGapBp, spreadCheck, spreadCheckSell, replaceOrder,
    calculateOrderPrice, distanceBpOf, positionEps, Env.place, MakerPointsBot.slot,
    MakerPointsBot.setSlot, MakerPointsBot.incPlaced, MakerPointsBot.incCanceled,
    actsLeaveSideAlone, Action.leavesSideAlone,
    bot0, env0, snapCrossed, orderB1, orderB2, orderS1, cfg0, abs_of_nonneg]

/-- C6 (amended): distance-check idempotence holds for an order that is also
clear of the spread-crossing guard. Processing a snapshot whose last-to-mark
gap is within the volatility target, with a flat authoritative position, an
unpaused running controller, and on one side an open in-band order that does
not cross the book (a buy strictly below the best bid, a sell strictly above
the best ask) and shares no order id with the other side's resting or newly
placed order, performs no cancel and no placement for that side; processing
the identical snapshot again still performs none, and the slot still holds
the same order. Without the no-crossing proviso the property fails. -/
theorem C6_distance_idempotence_requires_no_crossing
    (cfg : TradingConfig) (env : Env) (bot : MakerPointsBot) (snap : Snapshot)
    (side : Side) (o : Order) (lp bid ask : ℚ)
    (hrun : bot.state.isRunning = true)
    (hstop : bot.stopRequested = false)
    (hmark : snap.markPrice ≠ 0)
    (hfill : bot.isProcessingFill = false)
    (hpos : |env.currentPosition| < positionEps)
    (hpause : bot.isPausedDueToVolatility = false)
    (hlp : snap.lastPrice = some lp)
    (hgap : lastMarkGapBp lp snap.markPrice ≤ cfg.orderDistanceBp)
    (hspread : snap.spread = some (bid, ask))
    (hslot : bot.slot side = some o)
    (hopen : o.status = "OPEN")
    (hlo : cfg.minDistanceBp ≤ distanceBpOf snap.markPrice o)
    (hhi : distanceBpOf snap.markPrice o ≤ cfg.maxDistanceBp)
    (hnocb : side = .buy → o.price < bid)
    (hnocs : side = .sell → ask < o.price)
    (hido : ∀ oo, bot.slot side.opposite = some oo → oo.orderId ≠ o.orderId)
    (henv : ∀ oo, env.place side.opposite = some oo → oo.orderId ≠ o.orderId) :
    actsLeaveSideAlone (handleMarkPriceUpdate cfg env bot snap).2
      o.orderId side = true ∧
    actsLeaveSideAlone
      (handleMarkPriceUpdate cfg env
        (handleMarkPriceUpdate cfg env bot snap).1 snap).2 o.orderId side = true ∧
    (handleMarkPriceUpdate cfg env
      (handleMarkPriceUpdate cfg env bot snap).1 snap).1.slot side = some o := by
  cases side with
  | buy =>
    have h1 := checkAndReplace_buyProtected cfg env (applySnapshot bot snap) o
      (by rw [applySnapshot_isRunning]; exact hrun)
      (by rw [applySnapshot_stopRequested]; exact hstop)
      (by rw [applySnapshot_markPrice]; exact hmark)
      (by rw [applySnapshot_isProcessingFill]; exact hfill)
      hpos
      (by rw [applySnapshot_paused]; exact hpause)
      (by
        intro lp' hlp'
        rw [applySnapshot_lastPrice bot snap lp hlp] at hlp'
        cases Option.some.inj hlp'
        rw [applySnapshot_markPrice]
        exact hgap)
      (by rw [applySnapshot_buyOrder]; exact hslot)
      hopen
      (by rw [applySnapshot_markPrice]; exact hlo)
      (by rw [applySnapshot_markPrice]; exact hhi)
      (by
        intro bid' hbid'
        rw [applySnapshot_spreadBid bot snap bid ask hspread] at hbid'
        cases Option.some.inj hbid'
        exact hnocb rfl)
      (by
        intro so hso
        rw [applySnapshot_sellOrder] at hso
        exact hido so hso)
    have h2 := checkAndReplace_buyProtected cfg env
        (applySnapshot (checkAndReplaceOrders cfg env (applySnapshot bot snap)).1 snap) o
      (by rw [applySnapshot_isRunning]; exact h1.2.2.1)
      (by rw [applySnapshot_stopRequested]; exact h1.2.2.2.1)
      (by rw [applySnapshot_markPrice]; exact hmark)
      (by rw [applySnapshot_isProcessingFill]; exact h1.2.2.2.2.1)
      hpos
      (by rw [applySnapshot_paused]; exact h1.2.2.2.2.2.1)
      (by
        intro lp' hlp'
        rw [applySnapshot_lastPrice _ snap lp hlp] at hlp'
        cases Option.some.inj hlp'
        rw [applySnapshot_markPrice]
        exact hgap)
      (by rw [applySnapshot_buyOrder]; exact h1.1)
      hopen
      (by rw [applySnapshot_markPrice]; exact hlo)
      (by rw [applySnapshot_markPrice]; exact hhi)
      (by
        intro bid' hbid'
        rw [applySnapshot_spreadBid _ snap bid ask hspread] at hbid'
        cases Option.some.inj hbid'
        exact hnocb rfl)
      (by
        intro so hso
        rw [applySnapshot_sellOrder] at hso
        rcases h1.2.2.2.2.2.2 with hh | hh
        · rw [hh, applySnapshot_sellOrder] at hso
          exact hido so hso
        · rw [hh] at hso
          exact henv so hso)
    exact ⟨h1.2.1, h2.2.1, h2.1⟩
  | sell =>
    have h1 := checkAndReplace_sellProtected cfg env (applySnapshot bot snap) o
      (by rw [applySnapshot_isRunning]; exact hrun)
      (by rw [applySnapshot_stopRequested]; exact hstop)
      (by rw [applySnapshot_markPrice]; exact hmark)
      (by rw [applySnapshot_isProcessingFill]; exact hfill)
      hpos
      (by rw [applySnapshot_paused]; exact hpause)
      (by
        intro lp' hlp'
        rw [applySnapshot_lastPrice bot snap lp hlp] at hlp'
        cases Option.some.inj hlp'
        rw [applySnapshot_markPrice]
        exact hgap)
      (by rw [applySnapshot_sellOrder]; exact hslot)
      hopen
      (by rw [applySnapshot_markPrice]; exact hlo)
      (by rw [applySnapshot_markPrice]; exact hhi)
      (by
        intro ask' hask'
        rw [applySnapshot_spreadAsk bot snap bid ask hspread] at hask'
        cases Option.some.inj hask'
        exact hnocs rfl)
      (by
        intro bo hbo
        rw [applySnapshot_buyOrder] at hbo
        exact hido bo hbo)
    have h2 := checkAndReplace_sellProtected cfg env
        (applySnapshot (checkAndReplaceOrders cfg env (applySnapshot bot snap)).1 snap) o
      (by rw [applySnapshot_isRunning]; exact h1.2.2.1)
      (by rw [applySnapshot_stopRequested]; exact h1.2.2.2.1)
      (by rw [applySnapshot_markPrice]; exact hmark)
      (by rw [applySnapshot_isProcessingFill]; exact h1.2.2.2.2.1)
      hpos
      (by rw [applySnapshot_paused]; exact h1.2.2.2.2.2.1)
      (by
        intro lp' hlp'
        rw [applySnapshot_lastPrice _ snap lp hlp] at hlp'
        cases Option.some.inj hlp'
        rw [applySnapshot_markPrice]
        exact hgap)
      (by rw [applySnapshot_sellOrder]; exact h1.1)
      hopen
      (by rw [applySnapshot_markPrice]; exact hlo)
      (by rw [applySnapshot_markPrice]; exact hhi)
      (by
        intro ask' hask'
        rw [applySnapshot_spreadAsk _ snap bid ask hspread] at hask'
        cases Option.some.inj hask'
        exact hnocs rfl)
      (by
        intro bo hbo
        rw [applySnapshot_buyOrder] at hbo
        rcases h1.2.2.2.2.2.2 with hh | hh
        · rw [hh, applySnapshot_buyOrder] at hbo
          exact hido bo hbo
        · rw [hh] at hbo
          exact henv bo hbo)
    exact ⟨h1.2.1, h2.2.1, h2.1⟩

/-- C6 witness: the quiet `bot0` book (bid 99.9 over the 99.8 buy) processed
twice with the same quiet snapshot leaves the buy order untouched both
times. -/
theorem C6_distance_idempotence_requires_no_crossing_witness :
    actsLeaveSideAlone (handleMarkPriceUpdate cfg0 env0 bot0 snapQuiet).2
      orderB1.orderId .buy = true ∧
    actsLeaveSideAlone
      (handleMarkPriceUpdate cfg0 env0
        (handleMarkPriceUpdate cfg0 env0 bot0 snapQuiet).1 snapQuiet).2
      orderB1.orderId .buy = true ∧
    (handleMarkPriceUpdate cfg0 env0
      (handleMarkPriceUpdate cfg0 env0 bot0 snapQuiet).1 snapQuiet).1.slot .buy =
      some orderB1 :=
  C6_distance_idempotence_requires_no_crossing cfg0 env0 bot0 snapQuiet .buy
    orderB1 100 (999 / 10) (1001 / 10)
    rfl rfl (by norm_num [snapQuiet]) rfl
    (by norm_num [env0, positionEps]) rfl
    rfl
    (by norm_num [lastMarkGapBp, snapQuiet, cfg0])
    rfl
    rfl
    rfl
    (by norm_num [distanceBpOf, snapQuiet, orderB1, cfg0, abs_of_nonneg])
    (by norm_num [distanceBpOf, snapQuiet, orderB1, cfg0, abs_of_nonneg])
    (fun _ => by norm_num [orderB1])
    (fun h => nomatch h)
    (by
      intro oo h
      rw [show MakerPointsBot.slot bot0 (Side.opposite .buy) = some orderS1 from rfl] at h
      cases Option.some.inj h
      decide)
    (by
      intro oo h
      rw [show Env.place env0 (Side.opposite .buy) = some orderS2 from rfl] at h
      cases Option.some.inj h
      decide)

end StandXMM
